import Mathlib

/-!
# SecureUxTheme ThemeTool: the patcher lifecycle of `MainDialog.cpp`

A shallow embedding of the install / uninstall / status code of
`src/ThemeTool/MainDialog.cpp`.

* The registry and the shim file are an explicit `Store`.
* The Win32 calls the program issues are functions on a `Sys` state.  Calls
  that change the store (`RegSetKeyValueW`, `RegDeleteKeyValueW`,
  `utl::write_file`, `utl::nuke_file`) consult an environment `Env`: for the
  n-th such call it gives an error code to fail with (`0`: the call is carried
  out) and a modification of the store by concurrent writers that lands right
  after the call.  Every such call is recorded in `Sys.trace`.
* A read (`RegGetValueW`, `utl::read_file`, the atom count) that is carried out
  is a function of the store: it fails exactly when the store holds no value of
  the requested type, and `RRF_ZEROONFAILURE` then zeroes the buffer.
* The flag read that opens `InstallForExecutable` and `UninstallForExecutable`,
  whose result the source discards ("we don't care if it fails"), can also be
  made to fail by the environment; `GlobalFlag` is then zero.  A failing re-read
  in `UninstallForExecutable` and failing reads of the status are outside the
  model.
* Message boxes and the log window are not modelled; `Install`, which is `void`
  in the source, returns which of its message boxes it ended with.
-/

namespace SecureUxTheme

/-! ## Data model -/

/-- Data of a registry value, by the value types the program asks for. -/
inductive RegData where
  /-- `REG_DWORD`; reads truncate the number to 32 bits. -/
  | dword (v : Nat)
  /-- `REG_SZ`: the characters of the string before its terminating NUL. -/
  | sz (s : List Char)
  /-- Data of any other registry type. -/
  | other (ty : Nat)
  deriving DecidableEq, Repr

/-- The registry below the Image File Execution Options key and the shim file.
`reg subkey name` is the value `name` of the subkey of an executable. -/
structure Store where
  /-- Registry values by subkey (executable name) and value name. -/
  reg : String → String → Option RegData
  /-- Bytes of the file at `GetPatcherDllPath()`; `none` when there is no file. -/
  file : Option (List Nat)
  /-- Reference count of the atom `SecureUxTheme_CalledInWinlogon`. -/
  atom : Int

/-- What the environment does to one store-changing call. -/
structure Event where
  /-- Error the call fails with; `0` lets the call run. -/
  err : Nat
  /-- Concurrent modification of the store landing right after the call. -/
  after : Store → Store
  /-- Error with which the flag read that opens `InstallForExecutable` or
  `UninstallForExecutable` right before the call fails (the reads the source
  comments with "we don't care if it fails"); `0` lets the read run. -/
  readErr : Nat

/-- Behaviour of the environment, by the number of the store-changing call. -/
abbrev Env := Nat → Event

/-- Store-changing calls as recorded in the trace. -/
inductive Call where
  | RegSetKeyValueW (subkey name : String) (data : RegData)
  | RegDeleteKeyValueW (subkey name : String)
  | write_file (bytes : List Nat)
  | nuke_file
  deriving DecidableEq, Repr

/-- State of the machine as the program sees it. -/
structure Sys where
  store : Store
  /-- Number of store-changing calls issued so far. -/
  clock : Nat
  /-- Store-changing calls issued so far, oldest first. -/
  trace : List Call

/-- `FLG_APPLICATION_VERIFIER`. -/
def FLG_APPLICATION_VERIFIER : Nat := 0x100

/-- `~FLG_APPLICATION_VERIFIER` as a 32-bit mask. -/
def NOT_FLG_APPLICATION_VERIFIER : Nat := 0xFFFFFEFF

/-- `kPatcherDllName`. -/
def kPatcherDllName : List Char := "SecureUxTheme.dll".toList

/-- `ERROR_FILE_NOT_FOUND`. -/
def ERROR_FILE_NOT_FOUND : Nat := 2

/-- `PatcherState`. -/
inductive PatcherState where
  | No | Yes | Probably | Outdated
  deriving DecidableEq, Repr

/-! ## Store updates -/

/-- The store with value `name` of `subkey` replaced by `d` (`none` removes it). -/
def Store.put (st : Store) (subkey name : String) (d : Option RegData) : Store :=
  { st with reg := fun k n => if k = subkey ∧ n = name then d else st.reg k n }

/-! ## Win32 and `utl` primitives -/

/-- `RegGetValueW(HKLM, subkey, name, RRF_RT_REG_DWORD | RRF_ZEROONFAILURE, ..)`
when the call is carried out: the value read into a zero-initialised `DWORD`;
zero when there is no such `REG_DWORD` value.  `RegGetValueW_DWORD_unchecked`
is the call that the environment can make fail. -/
def RegGetValueW_DWORD (st : Store) (subkey name : String) : Nat :=
  match st.reg subkey name with
  | some (RegData.dword v) => v % 2 ^ 32
  | _ => 0

/-- `RegGetValueW(HKLM, subkey, name, RRF_RT_REG_SZ | RRF_ZEROONFAILURE, ..)` into a
buffer of 257 `wchar_t`: the string read; empty when there is no such `REG_SZ`
value or it does not fit with its terminator (`ERROR_MORE_DATA`). -/
def RegGetValueW_SZ (st : Store) (subkey name : String) : List Char :=
  match st.reg subkey name with
  | some (RegData.sz s) => if s.length + 1 ≤ 257 then s else []
  | _ => []

/-- The read `RegGetValueW_DWORD` at the places where the source discards its
result ("we don't care if it fails", lines 140 and 178): the environment may
make the call fail, and `RRF_ZEROONFAILURE` then leaves zero. -/
def RegGetValueW_DWORD_unchecked (env : Env) (s : Sys) (subkey name : String) : Nat :=
  if (env s.clock).readErr = 0 then RegGetValueW_DWORD s.store subkey name else 0

/-- `_wcsicmp`: zero exactly when the strings agree after lower-casing; the
program only tests the result against zero. -/
def _wcsicmp (a b : List Char) : Int :=
  if a.map Char.toLower = b.map Char.toLower then 0 else 1

/-- `RegSetKeyValueW(HKLM, subkey, name, type, data, size)`. -/
def RegSetKeyValueW (env : Env) (subkey name : String) (data : RegData) (s : Sys) :
    Nat × Sys :=
  let e := env s.clock
  let tr := s.trace ++ [Call.RegSetKeyValueW subkey name data]
  if e.err = 0 then
    (0, { store := e.after (s.store.put subkey name (some data)), clock := s.clock + 1, trace := tr })
  else
    (e.err, { store := e.after s.store, clock := s.clock + 1, trace := tr })

/-- `RegDeleteKeyValueW(HKLM, subkey, name)`; `ERROR_FILE_NOT_FOUND` when there
is no such value. -/
def RegDeleteKeyValueW (env : Env) (subkey name : String) (s : Sys) : Nat × Sys :=
  let e := env s.clock
  let tr := s.trace ++ [Call.RegDeleteKeyValueW subkey name]
  if e.err = 0 then
    match s.store.reg subkey name with
    | some _ =>
      (0, { store := e.after (s.store.put subkey name none), clock := s.clock + 1, trace := tr })
    | none =>
      (ERROR_FILE_NOT_FOUND, { store := e.after s.store, clock := s.clock + 1, trace := tr })
  else
    (e.err, { store := e.after s.store, clock := s.clock + 1, trace := tr })

/-- Modelled from the spec: `utl::write_file` is not in the sources at hand; it
is the file store's `writeAll(path, bytes) -> errorCode`, which creates or
truncates the file at the path and writes the bytes. -/
def write_file (env : Env) (bytes : List Nat) (s : Sys) : Nat × Sys :=
  let e := env s.clock
  let tr := s.trace ++ [Call.write_file bytes]
  if e.err = 0 then
    (0, { store := e.after { s.store with file := some bytes }, clock := s.clock + 1, trace := tr })
  else
    (e.err, { store := e.after s.store, clock := s.clock + 1, trace := tr })

/-- Modelled from the spec: `utl::nuke_file` is not in the sources at hand; it
is the file store's `forceDelete(path) -> errorCode`, after whose success there
is no file at the path. -/
def nuke_file (env : Env) (s : Sys) : Nat × Sys :=
  let e := env s.clock
  let tr := s.trace ++ [Call.nuke_file]
  if e.err = 0 then
    (0, { store := e.after { s.store with file := none }, clock := s.clock + 1, trace := tr })
  else
    (e.err, { store := e.after s.store, clock := s.clock + 1, trace := tr })

/-- Modelled from the spec: `utl::read_file` is not in the sources at hand; it
is the file store's `readAll(path) -> (bytes, errorCode)`; the content stays
empty when the file cannot be read. -/
def read_file (st : Store) : List Nat :=
  match st.file with
  | some bytes => bytes
  | none => []

/-- `WinlogonBypassCount`. -/
def WinlogonBypassCount (st : Store) : Int := st.atom

/-! ## `MainDialog` -/

/-- `MainDialog::IsInstalledForExecutable`. -/
def IsInstalledForExecutable (st : Store) (executable : String) : Bool :=
  let GlobalFlag := RegGetValueW_DWORD st executable "GlobalFlag"
  let VerifierDlls := RegGetValueW_SZ st executable "VerifierDlls"
  (GlobalFlag &&& FLG_APPLICATION_VERIFIER != 0) && (0 == _wcsicmp VerifierDlls kPatcherDllName)

/-- `MainDialog::InstallForExecutable`. -/
def InstallForExecutable (env : Env) (executable : String) (s : Sys) : Nat × Sys :=
  let GlobalFlag := RegGetValueW_DWORD_unchecked env s executable "GlobalFlag"
  let GlobalFlag := GlobalFlag ||| FLG_APPLICATION_VERIFIER
  let (ret, s) := RegSetKeyValueW env executable "GlobalFlag" (RegData.dword GlobalFlag) s
  if ret = 0 then
    RegSetKeyValueW env executable "VerifierDlls" (RegData.sz kPatcherDllName) s
  else
    (ret, s)

/-- Lines 175 to 208 of `MainDialog::UninstallForExecutable`: read the flag,
clear the bit, delete the value or write it back. -/
def UninstallForExecutable.clearFlag (env : Env) (executable : String) (s : Sys) :
    Nat × Sys :=
  let GlobalFlag := RegGetValueW_DWORD_unchecked env s executable "GlobalFlag"
  let GlobalFlag := GlobalFlag &&& NOT_FLG_APPLICATION_VERIFIER
  if GlobalFlag = 0 then
    RegDeleteKeyValueW env executable "GlobalFlag" s
  else
    RegSetKeyValueW env executable "GlobalFlag" (RegData.dword GlobalFlag) s

/-- `MainDialog::UninstallForExecutable`. -/
def UninstallForExecutable (env : Env) (executable : String) (s : Sys) : Nat × Sys :=
  let (ret, s) := UninstallForExecutable.clearFlag env executable s
  let GlobalFlag := RegGetValueW_DWORD s.store executable "GlobalFlag"
  if GlobalFlag &&& FLG_APPLICATION_VERIFIER = 0 then
    let (_, s) := RegDeleteKeyValueW env executable "VerifierDlls" s
    (0, s)
  else
    (ret, s)

/-- `remove_from` of `MainDialog::UninstallInternal`. -/
def remove_from : List String :=
  ["winlogon.exe", "explorer.exe", "SystemSettings.exe", "dwm.exe", "LogonUI.exe"]

/-- The `for` loop of `MainDialog::UninstallInternal` over the executables
still to process, from the current `ret` and `failed`. -/
def UninstallInternal.loop (env : Env) : List String → Nat → Bool → Sys → Nat × Bool × Sys
  | [], ret, failed, s => (ret, failed, s)
  | executable :: rest, _, _, s =>
    let (ret, s) := UninstallForExecutable env executable s
    let failed := ret != 0
    if failed then (ret, failed, s) else UninstallInternal.loop env rest ret failed s

/-- `MainDialog::UninstallInternal`. -/
def UninstallInternal (env : Env) (s : Sys) : Nat × Sys :=
  let (ret, failed, s) := UninstallInternal.loop env remove_from 0 false s
  if failed then
    (ret, s)
  else
    nuke_file env s

/-- The check boxes `Install` consults. -/
structure CheckBoxes where
  CHECK_EXPLORER : Bool
  CHECK_LOGONUI : Bool
  CHECK_SYSTEMSETTINGS : Bool

/-- `checks` of `MainDialog::Install`. -/
def checks : List ((CheckBoxes → Bool) × String) :=
  [ (CheckBoxes.CHECK_EXPLORER, "explorer.exe"),
    (CheckBoxes.CHECK_LOGONUI, "LogonUI.exe"),
    (CheckBoxes.CHECK_SYSTEMSETTINGS, "SystemSettings.exe") ]

/-- The message box `MainDialog::Install` ends with. -/
inductive InstallResult where
  /-- "Installation cannot continue because uninstalling failed". -/
  | uninstallFailed
  /-- "Installing patcher DLL failed", with the code of `utl::write_file`. -/
  | writeFailed (ret : Nat)
  /-- "Installing main hook failed", with the code of `InstallForExecutable`. -/
  | mainHookFailed (ret : Nat)
  /-- "Installing succeeded", after one warning for each optional executable
  whose hook failed, with its code. -/
  | succeeded (warnings : List (String × Nat))
  deriving DecidableEq, Repr

/-- The `for` loop of `MainDialog::Install` over `checks`, collecting the
warnings shown. -/
def Install.loop (env : Env) (boxes : CheckBoxes) :
    List ((CheckBoxes → Bool) × String) → Sys → List (String × Nat) × Sys
  | [], s => ([], s)
  | check :: rest, s =>
    if check.1 boxes then
      let (ret, s) := InstallForExecutable env check.2 s
      let (warnings, s) := Install.loop env boxes rest s
      (if ret = 0 then warnings else (check.2, ret) :: warnings, s)
    else
      Install.loop env boxes rest s

/-- `MainDialog::Install` up to the final message box; `blob` is
`utl::get_dll_blob()`, the payload compiled into the tool.  The reboot that
may follow a success is not modelled. -/
def Install (env : Env) (blob : List Nat) (boxes : CheckBoxes) (s : Sys) :
    InstallResult × Sys :=
  let (ret, s) := UninstallInternal env s
  if ret ≠ 0 then
    (InstallResult.uninstallFailed, s)
  else
    let (ret, s) := write_file env blob s
    if ret ≠ 0 then
      (InstallResult.writeFailed ret, s)
    else
      let (ret, s) := InstallForExecutable env "winlogon.exe" s
      if ret ≠ 0 then
        let (_, s) := UninstallInternal env s
        (InstallResult.mainHookFailed ret, s)
      else
        let (warnings, s) := Install.loop env boxes checks s
        (InstallResult.succeeded warnings, s)

/-- `MainDialog::Uninstall`, without the status refresh that follows it. -/
def Uninstall (env : Env) (s : Sys) : Sys :=
  (UninstallInternal env s).2

/-- The fields `MainDialog::UpdatePatcherState` assigns. -/
structure Status where
  _is_installed : PatcherState
  _is_loaded : PatcherState
  _is_logonui : PatcherState
  _is_explorer : PatcherState
  _is_systemsettings : PatcherState
  deriving DecidableEq, Repr

/-- `MainDialog::UpdatePatcherState`; `dll_expected_content` is
`utl::get_dll_blob()`. -/
def UpdatePatcherState (dll_expected_content : List Nat) (st : Store) : Status :=
  let content := read_file st
  let file_has_content := !content.isEmpty
  let file_is_same := content == dll_expected_content
  let reg_winlogon := IsInstalledForExecutable st "winlogon.exe"
  let reg_explorer := IsInstalledForExecutable st "explorer.exe"
  let reg_systemsettings := IsInstalledForExecutable st "SystemSettings.exe"
  let reg_logonui := IsInstalledForExecutable st "LogonUI.exe"
  let bypass_count := WinlogonBypassCount st
  let _is_installed :=
    if file_has_content && reg_winlogon then
      (if file_is_same then PatcherState.Yes else PatcherState.Outdated)
    else PatcherState.No
  let _is_loaded :=
    if bypass_count > 0 then PatcherState.Yes
    else (if _is_installed = PatcherState.Outdated then PatcherState.Probably else PatcherState.No)
  { _is_installed := _is_installed,
    _is_loaded := _is_loaded,
    _is_logonui := if reg_logonui then PatcherState.Yes else PatcherState.No,
    _is_explorer := if reg_explorer then PatcherState.Yes else PatcherState.No,
    _is_systemsettings := if reg_systemsettings then PatcherState.Yes else PatcherState.No }

/-! ## Reference derivation of the status -/

/-- The registration predicate in the words of the specification: the flag
bit `0x100` is set and `VerifierDlls` equals the shim file name up to case. -/
def Evaluate.reg (st : Store) (target : String) : Bool :=
  (match st.reg target "GlobalFlag" with
    | some (RegData.dword v) => v.testBit 8
    | _ => false) &&
  (match st.reg target "VerifierDlls" with
    | some (RegData.sz s) => s.map Char.toLower == kPatcherDllName.map Char.toLower
    | _ => false)

/-- The status in the words of the specification (section 4.1), from the file
bytes read, the expected payload, the registry entries and the bypass count. -/
def Evaluate (payload : List Nat) (st : Store) : Status :=
  let fileBytes : List Nat := match st.file with
    | some bytes => bytes
    | none => []
  let fileHasContent : Bool := decide (fileBytes ≠ [])
  let fileIsSame : Bool := decide (fileBytes = payload)
  let regRequired : Bool := Evaluate.reg st "winlogon.exe"
  let bypassCount : Int := st.atom
  let installed : PatcherState :=
    if fileHasContent && regRequired && fileIsSame then PatcherState.Yes
    else if fileHasContent && regRequired && !fileIsSame then PatcherState.Outdated
    else PatcherState.No
  let loaded : PatcherState :=
    if bypassCount > 0 then PatcherState.Yes
    else if installed = PatcherState.Outdated then PatcherState.Probably
    else PatcherState.No
  let hooked (target : String) : PatcherState :=
    if Evaluate.reg st target then PatcherState.Yes else PatcherState.No
  { _is_installed := installed,
    _is_loaded := loaded,
    _is_logonui := hooked "LogonUI.exe",
    _is_explorer := hooked "explorer.exe",
    _is_systemsettings := hooked "SystemSettings.exe" }

/-! ## Assumptions on the environment and effects of a clean run -/

/-- No concurrent writer: only the calls of the program change the store. -/
def Quiet (env : Env) : Prop := ∀ n st, (env n).after st = st

/-- The environment makes no call fail, neither a store-changing call nor a
read. -/
def Faultless (env : Env) : Prop := ∀ n, (env n).err = 0 ∧ (env n).readErr = 0

/-- The environment makes no flag read fail. -/
def ReadsSucceed (env : Env) : Prop := ∀ n, (env n).readErr = 0

/-- The `GlobalFlag` data of `executable` as the opening read of a removal or
registration presents it: the stored data, and nothing when the read fails. -/
def seenFlag (env : Env) (s : Sys) (executable : String) : Option RegData :=
  if (env s.clock).readErr = 0 then s.store.reg executable "GlobalFlag" else none

/-- The subkey a recorded registry call addresses. -/
def Call.subkey : Call → Option String
  | Call.RegSetKeyValueW subkey _ _ => some subkey
  | Call.RegDeleteKeyValueW subkey _ => some subkey
  | Call.write_file _ => none
  | Call.nuke_file => none

/-- The number a flag read yields for the stored data `d`: the stored number
truncated to 32 bits, and zero without a `REG_DWORD`. -/
def flagOf : Option RegData → Nat
  | some (RegData.dword v) => v % 2 ^ 32
  | _ => 0

/-- What an undisturbed per-target removal leaves of a `GlobalFlag` value:
bit `0x100` cleared, and no value when no other bit is left or when the value
was not a `REG_DWORD`. -/
def clearedFlag : Option RegData → Option RegData
  | some (RegData.dword v) =>
    if (v % 2 ^ 32) &&& NOT_FLG_APPLICATION_VERIFIER = 0 then none
    else some (RegData.dword ((v % 2 ^ 32) &&& NOT_FLG_APPLICATION_VERIFIER))
  | _ => none

/-- The `GlobalFlag` value an undisturbed `InstallForExecutable` stores over
the value `d`. -/
def hookedFlag (d : Option RegData) : Option RegData :=
  match d with
  | some (RegData.dword v) => some (RegData.dword ((v % 2 ^ 32) ||| FLG_APPLICATION_VERIFIER))
  | _ => some (RegData.dword FLG_APPLICATION_VERIFIER)

/-- The `GlobalFlag` of `executable` is a `REG_DWORD` whose bits outside
`FLG_APPLICATION_VERIFIER` are `c`. -/
def ForeignBits (executable : String) (c : Nat) (st : Store) : Prop :=
  ∃ g, st.reg executable "GlobalFlag" = some (RegData.dword g) ∧
    g &&& NOT_FLG_APPLICATION_VERIFIER = c

/-- The registry after undisturbed removals for the executables of `l`. -/
def unhookedReg (l : List String) (reg : String → String → Option RegData) :
    String → String → Option RegData :=
  fun k n =>
    if k ∈ l then
      (if n = "GlobalFlag" then clearedFlag (reg k "GlobalFlag")
        else if n = "VerifierDlls" then none
        else reg k n)
    else reg k n

/-- The registry after undisturbed registrations of the executables of `l`. -/
def hookedReg (l : List String) (reg : String → String → Option RegData) :
    String → String → Option RegData :=
  fun k n =>
    if k ∈ l then
      (if n = "GlobalFlag" then hookedFlag (reg k "GlobalFlag")
        else if n = "VerifierDlls" then some (RegData.sz kPatcherDllName)
        else reg k n)
    else reg k n

/-- The executables of the check list `l` whose box is checked. -/
def checkedTargets (boxes : CheckBoxes) (l : List ((CheckBoxes → Bool) × String)) :
    List String :=
  (l.filter (fun c => c.1 boxes)).map (fun c => c.2)

/-! ## Environments and states of the examples -/

/-- The environment in which no call fails and nobody else writes. -/
def calmEnv : Env := fun _ => { err := 0, after := fun st => st, readErr := 0 }

/-- The environment in which the store-changing call number `n` fails with
`code`, and nobody else writes. -/
def failAt (n code : Nat) : Env :=
  fun i => { err := if i = n then code else 0, after := fun st => st, readErr := 0 }

/-- The environment in which no call fails and, right after the first
store-changing call, a concurrent writer stores `GlobalFlag = 0x100` for
`winlogon.exe`. -/
def racingEnv : Env :=
  fun i =>
    { err := 0,
      after := fun st =>
        if i = 0 then st.put "winlogon.exe" "GlobalFlag" (some (RegData.dword 0x100)) else st,
      readErr := 0 }

/-- The environment in which the first store-changing call fails with code 5
and, right after it, another actor removes the `GlobalFlag` of `explorer.exe`;
no other call fails. -/
def lostRaceEnv : Env :=
  fun i =>
    { err := if i = 0 then 5 else 0,
      after := fun st => if i = 0 then st.put "explorer.exe" "GlobalFlag" none else st,
      readErr := 0 }

/-- The environment in which the flag read before the first store-changing
call fails with code 5; no store-changing call fails and nobody else writes. -/
def blindEnv : Env :=
  fun i => { err := 0, after := fun st => st, readErr := if i = 0 then 5 else 0 }

/-- A two-byte payload. -/
def blobMZ : List Nat := [0x4D, 0x5A]

/-- A fresh system: no registry values, no shim file, atom count zero. -/
def freshStore : Store := { reg := fun _ _ => none, file := none, atom := 0 }

/-- A system with the shim installed for `winlogon.exe`. -/
def hookedStore : Store :=
  { reg := fun k n =>
      if k = "winlogon.exe" ∧ n = "GlobalFlag" then some (RegData.dword 0x100)
      else if k = "winlogon.exe" ∧ n = "VerifierDlls" then some (RegData.sz kPatcherDllName)
      else none,
    file := some blobMZ,
    atom := 0 }

/-- A system on which another tool has set the flag bit `0x2` for
`winlogon.exe` and the shim is installed on top. -/
def sharedStore : Store :=
  { reg := fun k n =>
      if k = "winlogon.exe" ∧ n = "GlobalFlag" then some (RegData.dword 0x102)
      else if k = "winlogon.exe" ∧ n = "VerifierDlls" then some (RegData.sz kPatcherDllName)
      else none,
    file := some blobMZ,
    atom := 0 }

/-- A system on which another tool has hooked its own verifier module
`other.dll` into `explorer.exe`. -/
def foreignStore : Store :=
  { reg := fun k n =>
      if k = "explorer.exe" ∧ n = "GlobalFlag" then some (RegData.dword 0x100)
      else if k = "explorer.exe" ∧ n = "VerifierDlls" then some (RegData.sz "other.dll".toList)
      else none,
    file := none,
    atom := 0 }

/-- The state of a machine with store `st` before any call. -/
def Sys.start (st : Store) : Sys := { store := st, clock := 0, trace := [] }

/-! ## Bit arithmetic of the flag -/

theorem mask_testBit (i : Nat) :
    Nat.testBit 0xFFFFFEFF i = (decide (i < 32) && decide (i ≠ 8)) := by
  by_cases h : i < 32
  · interval_cases i <;> rfl
  · have : (0xFFFFFEFF : Nat) < 2 ^ i :=
      lt_of_lt_of_le (by norm_num) (Nat.pow_le_pow_right (by norm_num) (Nat.le_of_not_lt h))
    simp [Nat.testBit_lt_two_pow this, h]

theorem flg_testBit (i : Nat) : Nat.testBit 0x100 i = decide (i = 8) := by
  have : (0x100 : Nat) = 2 ^ 8 := by norm_num
  rw [this, Nat.testBit_two_pow]
  simp [eq_comm]

theorem and_flg_eq_zero_iff (v : Nat) : v &&& 0x100 = 0 ↔ Nat.testBit v 8 = false := by
  constructor
  · intro h
    have := congrArg (fun x => Nat.testBit x 8) h
    simpa [Nat.testBit_and, flg_testBit] using this
  · intro h
    apply Nat.eq_of_testBit_eq
    intro i
    simp only [Nat.testBit_and, flg_testBit, Nat.zero_testBit]
    by_cases hi : i = 8
    · subst hi; simp [h]
    · simp [hi]

theorem mod_and_mask (v : Nat) : (v % 2 ^ 32) &&& 0xFFFFFEFF = v &&& 0xFFFFFEFF := by
  apply Nat.eq_of_testBit_eq
  intro i
  simp only [Nat.testBit_and, mask_testBit, Nat.testBit_mod_two_pow]
  by_cases h : i < 32 <;> simp [h]

theorem or_flg_and_mask (v : Nat) : (v ||| 0x100) &&& 0xFFFFFEFF = v &&& 0xFFFFFEFF := by
  apply Nat.eq_of_testBit_eq
  intro i
  simp only [Nat.testBit_and, Nat.testBit_or, mask_testBit, flg_testBit]
  by_cases h : i = 8 <;> simp [h]

theorem and_mask_and_mask (v : Nat) :
    (v &&& 0xFFFFFEFF) &&& 0xFFFFFEFF = v &&& 0xFFFFFEFF := by
  rw [Nat.and_assoc, Nat.and_self]

theorem and_mask_and_flg (v : Nat) : (v &&& 0xFFFFFEFF) &&& 0x100 = 0 := by
  have h : (0xFFFFFEFF : Nat) &&& 0x100 = 0 := by decide
  rw [Nat.and_assoc, h, Nat.and_zero]

theorem or_flg_and_flg (v : Nat) : (v ||| 0x100) &&& 0x100 ≠ 0 := by
  rw [Ne, and_flg_eq_zero_iff]
  simp [Nat.testBit_or, flg_testBit]

theorem and_mask_lt (v : Nat) : v &&& 0xFFFFFEFF < 2 ^ 32 :=
  lt_of_le_of_lt Nat.and_le_right (by norm_num)

theorem mod_testBit8 (v : Nat) : Nat.testBit (v % 2 ^ 32) 8 = Nat.testBit v 8 := by
  rw [Nat.testBit_mod_two_pow]; simp

/-! ## Per-target removal and the re-read (C1, C2) -/

/-- C1. Per-target removal does not touch the verifier string while the hook
bit is on: whatever the flag write or delete returned and whatever concurrent
writers did to the store apart from this `VerifierDlls` value, if the second
read of `GlobalFlag` in `UninstallForExecutable` has bit `0x100` set, then the
call issues no delete of `VerifierDlls` and the `VerifierDlls` value of the
target is the same after the call as before. -/
theorem UninstallForExecutable_bit_set_keeps_VerifierDlls
    (env : Env) (executable : String) (s : Sys)
    (hw : ∀ n st, ((env n).after st).reg executable "VerifierDlls" =
      st.reg executable "VerifierDlls")
    (h : RegGetValueW_DWORD (UninstallForExecutable.clearFlag env executable s).2.store
          executable "GlobalFlag" &&& FLG_APPLICATION_VERIFIER ≠ 0) :
    Call.RegDeleteKeyValueW executable "VerifierDlls" ∉
        (UninstallForExecutable env executable s).2.trace.drop s.trace.length ∧
      (UninstallForExecutable env executable s).2.store.reg executable "VerifierDlls" =
        s.store.reg executable "VerifierDlls" := by
  have e : UninstallForExecutable env executable s =
      UninstallForExecutable.clearFlag env executable s := by
    simp only [UninstallForExecutable]
    rw [if_neg h]
  rw [e]
  simp only [UninstallForExecutable.clearFlag, RegDeleteKeyValueW, RegSetKeyValueW]
  split <;> split <;> (try split) <;> simp [hw, Store.put]

/-- C1 at work: the flag delete of `winlogon.exe` succeeds, a concurrent
writer sets the bit back before the re-read, and the verifier string stays. -/
theorem UninstallForExecutable_bit_set_keeps_VerifierDlls_witness :
    Call.RegDeleteKeyValueW "winlogon.exe" "VerifierDlls" ∉
        (UninstallForExecutable racingEnv "winlogon.exe" (Sys.start hookedStore)).2.trace.drop
          (Sys.start hookedStore).trace.length ∧
      (UninstallForExecutable racingEnv "winlogon.exe"
          (Sys.start hookedStore)).2.store.reg "winlogon.exe" "VerifierDlls" =
        (Sys.start hookedStore).store.reg "winlogon.exe" "VerifierDlls" :=
  UninstallForExecutable_bit_set_keeps_VerifierDlls racingEnv "winlogon.exe"
    (Sys.start hookedStore)
    (by intro n st; simp only [racingEnv]; split <;> simp [Store.put])
    (by decide)

/-- C2, the code at the failing input: the flag delete of `winlogon.exe`
succeeds, a concurrent writer sets the bit back, the re-read of `GlobalFlag`
has bit `0x100` set, and `UninstallForExecutable` returns `0`; the full removal
then goes on, returns `0` as well and removes the shim file while
`winlogon.exe` is still hooked to it. -/
theorem UninstallForExecutable_returns_success_with_bit_set :
    RegGetValueW_DWORD
        (UninstallForExecutable.clearFlag racingEnv "winlogon.exe"
          (Sys.start hookedStore)).2.store "winlogon.exe" "GlobalFlag"
        &&& FLG_APPLICATION_VERIFIER ≠ 0 ∧
      (UninstallForExecutable racingEnv "winlogon.exe" (Sys.start hookedStore)).1 = 0 ∧
      (UninstallInternal racingEnv (Sys.start hookedStore)).1 = 0 ∧
      (UninstallInternal racingEnv (Sys.start hookedStore)).2.store.file = none ∧
      IsInstalledForExecutable (UninstallInternal racingEnv (Sys.start hookedStore)).2.store
        "winlogon.exe" = true := by
  decide

/-! ## The status (C3) -/

theorem wcsicmp_eq_zero_iff (a b : List Char) :
    (0 == _wcsicmp a b) = decide (a.map Char.toLower = b.map Char.toLower) := by
  unfold _wcsicmp
  by_cases h : a.map Char.toLower = b.map Char.toLower <;> simp [h]

theorem beq_eq_decide_eq (a b : List Char) : (a == b) = decide (a = b) := by
  by_cases h : a = b
  · subst h; simp
  · simp [h]

theorem IsInstalledForExecutable_eq_reg (st : Store) (target : String) :
    IsInstalledForExecutable st target = Evaluate.reg st target := by
  have hflag : (RegGetValueW_DWORD st target "GlobalFlag" &&& FLG_APPLICATION_VERIFIER != 0) =
      (match st.reg target "GlobalFlag" with
        | some (RegData.dword v) => v.testBit 8
        | _ => false) := by
    unfold RegGetValueW_DWORD FLG_APPLICATION_VERIFIER
    split
    · rename_i v _
      have key : (v % 2 ^ 32 &&& 0x100 = 0) ↔ v.testBit 8 = false := by
        rw [and_flg_eq_zero_iff, mod_testBit8]
      cases hb : Nat.testBit v 8
      · rw [key.2 hb]; rfl
      · have h1 : v % 2 ^ 32 &&& 0x100 ≠ 0 := by
          intro h0
          have := key.1 h0
          rw [hb] at this
          cases this
        exact bne_iff_ne.2 h1
    · rfl
  have hnil : ¬ ([] : List Char) = kPatcherDllName.map Char.toLower := by decide
  have hsz : (0 == _wcsicmp (RegGetValueW_SZ st target "VerifierDlls") kPatcherDllName) =
      (match st.reg target "VerifierDlls" with
        | some (RegData.sz s) => s.map Char.toLower == kPatcherDllName.map Char.toLower
        | _ => false) := by
    rw [wcsicmp_eq_zero_iff]
    unfold RegGetValueW_SZ
    split
    · rename_i s _
      rw [beq_eq_decide_eq]
      by_cases hl : s.length + 1 ≤ 257
      · simp only [if_pos hl]
      · have hne : ¬ s.map Char.toLower = kPatcherDllName.map Char.toLower := by
          intro he
          have := congrArg List.length he
          simp only [List.length_map] at this
          have h17 : kPatcherDllName.length = 17 := by decide
          omega
        simp only [if_neg hl, decide_eq_false hne]
        exact decide_eq_false hnil
    · exact decide_eq_false hnil
  unfold IsInstalledForExecutable Evaluate.reg
  simp only [hflag, hsz]

theorem UpdatePatcherState_eq (payload : List Nat) (st : Store) :
    UpdatePatcherState payload st = Evaluate payload st := by
  unfold UpdatePatcherState Evaluate read_file WinlogonBypassCount
  simp only [IsInstalledForExecutable_eq_reg]
  cases hf : st.file with
  | none => simp
  | some bytes =>
    cases bytes with
    | nil => simp
    | cons b bs =>
      by_cases hs : b :: bs = payload
      · simp [hs]
      · simp [hs]

/-- C3. The status computed by `UpdatePatcherState` is the reference
derivation of section 4.1 for every payload, file content, registry and bypass
count.  In particular a missing file gives installed = No with loaded decided by
the bypass count alone, and a file replaced by other, non-empty bytes with
`winlogon.exe` still registered and bypass count 0 gives installed = Outdated,
loaded = Probably. -/
theorem UpdatePatcherState_eq_Evaluate (payload : List Nat) (st : Store) :
    UpdatePatcherState payload st = Evaluate payload st ∧
      (st.file = none →
        (UpdatePatcherState payload st)._is_installed = PatcherState.No ∧
        (UpdatePatcherState payload st)._is_loaded =
          if st.atom > 0 then PatcherState.Yes else PatcherState.No) ∧
      (∀ bytes, st.file = some bytes → bytes ≠ [] → bytes ≠ payload →
        Evaluate.reg st "winlogon.exe" = true → st.atom = 0 →
        (UpdatePatcherState payload st)._is_installed = PatcherState.Outdated ∧
        (UpdatePatcherState payload st)._is_loaded = PatcherState.Probably) := by
  refine ⟨UpdatePatcherState_eq payload st, ?_, ?_⟩
  · intro hf
    rw [UpdatePatcherState_eq]
    simp [Evaluate, hf]
  · intro bytes hf hne hdiff hreg hatom
    rw [UpdatePatcherState_eq]
    simp [Evaluate, hf, hne, hdiff, hreg, hatom]

/-- C3 at work: the fresh system, and the hooked system after its shim file was
replaced by one other byte. -/
theorem UpdatePatcherState_eq_Evaluate_witness :
    ((UpdatePatcherState blobMZ freshStore)._is_installed = PatcherState.No ∧
      (UpdatePatcherState blobMZ freshStore)._is_loaded =
        if freshStore.atom > 0 then PatcherState.Yes else PatcherState.No) ∧
    ((UpdatePatcherState blobMZ { hookedStore with file := some [7] })._is_installed =
        PatcherState.Outdated ∧
      (UpdatePatcherState blobMZ { hookedStore with file := some [7] })._is_loaded =
        PatcherState.Probably) :=
  ⟨(UpdatePatcherState_eq_Evaluate blobMZ freshStore).2.1 rfl,
   (UpdatePatcherState_eq_Evaluate blobMZ { hookedStore with file := some [7] }).2.2 [7] rfl
      (by decide) (by decide) (by decide) rfl⟩

/-! ## The primitives without a concurrent writer -/

theorem Store.put_absent (st : Store) (k n : String) (h : st.reg k n = none) :
    st.put k n none = st := by
  cases st with
  | mk reg file atom =>
    simp only [Store.put, Store.mk.injEq, and_true]
    funext k2 n2
    by_cases h2 : k2 = k ∧ n2 = n
    · simp only [h2, and_self, if_true]
      obtain ⟨rfl, rfl⟩ := h2
      exact h.symm
    · simp only [h2, if_false]

theorem RegSetKeyValueW_ret (env : Env) (k n : String) (d : RegData) (s : Sys) :
    (RegSetKeyValueW env k n d s).1 = (env s.clock).err := by
  unfold RegSetKeyValueW
  by_cases h : (env s.clock).err = 0 <;> simp [h]

theorem RegSetKeyValueW_clock (env : Env) (k n : String) (d : RegData) (s : Sys) :
    (RegSetKeyValueW env k n d s).2.clock = s.clock + 1 := by
  unfold RegSetKeyValueW
  by_cases h : (env s.clock).err = 0 <;> simp [h]

theorem RegSetKeyValueW_trace (env : Env) (k n : String) (d : RegData) (s : Sys) :
    (RegSetKeyValueW env k n d s).2.trace = s.trace ++ [Call.RegSetKeyValueW k n d] := by
  unfold RegSetKeyValueW
  by_cases h : (env s.clock).err = 0 <;> simp [h]

theorem RegSetKeyValueW_store {env : Env} (hq : Quiet env) (k n : String) (d : RegData)
    (s : Sys) :
    (RegSetKeyValueW env k n d s).2.store =
      if (env s.clock).err = 0 then s.store.put k n (some d) else s.store := by
  unfold RegSetKeyValueW
  by_cases h : (env s.clock).err = 0 <;> simp [h, hq _ _]

theorem RegDeleteKeyValueW_ret (env : Env) (k n : String) (s : Sys) :
    (RegDeleteKeyValueW env k n s).1 =
      if (env s.clock).err = 0 then
        (if s.store.reg k n = none then ERROR_FILE_NOT_FOUND else 0)
      else (env s.clock).err := by
  unfold RegDeleteKeyValueW
  by_cases h : (env s.clock).err = 0
  · cases hr : s.store.reg k n <;> simp [h, hr]
  · simp [h]

theorem RegDeleteKeyValueW_clock (env : Env) (k n : String) (s : Sys) :
    (RegDeleteKeyValueW env k n s).2.clock = s.clock + 1 := by
  unfold RegDeleteKeyValueW
  by_cases h : (env s.clock).err = 0
  · cases hr : s.store.reg k n <;> simp [h, hr]
  · simp [h]

theorem RegDeleteKeyValueW_trace (env : Env) (k n : String) (s : Sys) :
    (RegDeleteKeyValueW env k n s).2.trace = s.trace ++ [Call.RegDeleteKeyValueW k n] := by
  unfold RegDeleteKeyValueW
  by_cases h : (env s.clock).err = 0
  · cases hr : s.store.reg k n <;> simp [h, hr]
  · simp [h]

theorem RegDeleteKeyValueW_store {env : Env} (hq : Quiet env) (k n : String) (s : Sys) :
    (RegDeleteKeyValueW env k n s).2.store =
      if (env s.clock).err = 0 then s.store.put k n none else s.store := by
  unfold RegDeleteKeyValueW
  by_cases h : (env s.clock).err = 0
  · cases hr : s.store.reg k n
    · simp [h, hr, hq _ _, Store.put_absent _ _ _ hr]
    · simp [h, hr, hq _ _]
  · simp [h, hq _ _]

theorem UninstallForExecutable_eq (env : Env) (t : String) (s : Sys) :
    UninstallForExecutable env t s =
      if RegGetValueW_DWORD (UninstallForExecutable.clearFlag env t s).2.store t "GlobalFlag"
          &&& FLG_APPLICATION_VERIFIER = 0 then
        (0, (RegDeleteKeyValueW env t "VerifierDlls" (UninstallForExecutable.clearFlag env t s).2).2)
      else UninstallForExecutable.clearFlag env t s := rfl

theorem InstallForExecutable_eq (env : Env) (t : String) (s : Sys) :
    InstallForExecutable env t s =
      if (RegSetKeyValueW env t "GlobalFlag" (RegData.dword
            (RegGetValueW_DWORD_unchecked env s t "GlobalFlag" |||
              FLG_APPLICATION_VERIFIER)) s).1 = 0 then
        RegSetKeyValueW env t "VerifierDlls" (RegData.sz kPatcherDllName)
          (RegSetKeyValueW env t "GlobalFlag" (RegData.dword
            (RegGetValueW_DWORD_unchecked env s t "GlobalFlag" |||
              FLG_APPLICATION_VERIFIER)) s).2
      else
        RegSetKeyValueW env t "GlobalFlag" (RegData.dword
            (RegGetValueW_DWORD_unchecked env s t "GlobalFlag" |||
              FLG_APPLICATION_VERIFIER)) s := rfl

theorem write_file_ret (env : Env) (bytes : List Nat) (s : Sys) :
    (write_file env bytes s).1 = (env s.clock).err := by
  unfold write_file
  by_cases h : (env s.clock).err = 0 <;> simp [h]

theorem write_file_clock (env : Env) (bytes : List Nat) (s : Sys) :
    (write_file env bytes s).2.clock = s.clock + 1 := by
  unfold write_file
  by_cases h : (env s.clock).err = 0 <;> simp [h]

theorem write_file_trace (env : Env) (bytes : List Nat) (s : Sys) :
    (write_file env bytes s).2.trace = s.trace ++ [Call.write_file bytes] := by
  unfold write_file
  by_cases h : (env s.clock).err = 0 <;> simp [h]

theorem write_file_store {env : Env} (hq : Quiet env) (bytes : List Nat) (s : Sys) :
    (write_file env bytes s).2.store =
      if (env s.clock).err = 0 then { s.store with file := some bytes } else s.store := by
  unfold write_file
  by_cases h : (env s.clock).err = 0 <;> simp [h, hq _ _]

theorem nuke_file_ret (env : Env) (s : Sys) :
    (nuke_file env s).1 = (env s.clock).err := by
  unfold nuke_file
  by_cases h : (env s.clock).err = 0 <;> simp [h]

theorem nuke_file_clock (env : Env) (s : Sys) :
    (nuke_file env s).2.clock = s.clock + 1 := by
  unfold nuke_file
  by_cases h : (env s.clock).err = 0 <;> simp [h]

theorem nuke_file_trace (env : Env) (s : Sys) :
    (nuke_file env s).2.trace = s.trace ++ [Call.nuke_file] := by
  unfold nuke_file
  by_cases h : (env s.clock).err = 0 <;> simp [h]

theorem nuke_file_store {env : Env} (hq : Quiet env) (s : Sys) :
    (nuke_file env s).2.store =
      if (env s.clock).err = 0 then { s.store with file := none } else s.store := by
  unfold nuke_file
  by_cases h : (env s.clock).err = 0 <;> simp [h, hq _ _]

/-! ## Reads after a registry update -/

theorem Store.put_reg (st : Store) (k n : String) (d : Option RegData) (k2 n2 : String) :
    (st.put k n d).reg k2 n2 = if k2 = k ∧ n2 = n then d else st.reg k2 n2 := rfl

theorem Store.put_file (st : Store) (k n : String) (d : Option RegData) :
    (st.put k n d).file = st.file := rfl

theorem Store.put_atom (st : Store) (k n : String) (d : Option RegData) :
    (st.put k n d).atom = st.atom := rfl

theorem GlobalFlag_ne_VerifierDlls : ("GlobalFlag" : String) ≠ "VerifierDlls" := by decide

theorem VerifierDlls_ne_GlobalFlag : ("VerifierDlls" : String) ≠ "GlobalFlag" := by decide

theorem RegGetValueW_DWORD_eq (st : Store) (k n : String) :
    RegGetValueW_DWORD st k n = flagOf (st.reg k n) := by
  unfold RegGetValueW_DWORD flagOf
  split <;> simp_all

theorem RegGetValueW_DWORD_unchecked_eq (env : Env) (s : Sys) (k : String) :
    RegGetValueW_DWORD_unchecked env s k "GlobalFlag" = flagOf (seenFlag env s k) := by
  unfold RegGetValueW_DWORD_unchecked seenFlag
  split
  · exact RegGetValueW_DWORD_eq _ _ _
  · rfl

theorem seenFlag_of_ReadsSucceed {env : Env} (hr : ReadsSucceed env) (s : Sys) (k : String) :
    seenFlag env s k = s.store.reg k "GlobalFlag" := by
  unfold seenFlag
  rw [if_pos (hr _)]

theorem ReadsSucceed_of_Faultless {env : Env} (hf : Faultless env) : ReadsSucceed env :=
  fun n => (hf n).2

theorem flagOf_lt (d : Option RegData) : flagOf d < 2 ^ 32 := by
  unfold flagOf
  split
  · exact Nat.mod_lt _ (by norm_num)
  · norm_num

theorem clearedFlag_eq (d : Option RegData) :
    clearedFlag d =
      if flagOf d &&& NOT_FLG_APPLICATION_VERIFIER = 0 then none
      else some (RegData.dword (flagOf d &&& NOT_FLG_APPLICATION_VERIFIER)) := by
  rcases d with _ | ⟨v | s | ty⟩ <;>
    simp [clearedFlag, hookedFlag, flagOf, NOT_FLG_APPLICATION_VERIFIER, FLG_APPLICATION_VERIFIER]

theorem hookedFlag_eq (d : Option RegData) :
    hookedFlag d = some (RegData.dword (flagOf d ||| FLG_APPLICATION_VERIFIER)) := by
  rcases d with _ | ⟨v | s | ty⟩ <;>
    simp [clearedFlag, hookedFlag, flagOf, NOT_FLG_APPLICATION_VERIFIER, FLG_APPLICATION_VERIFIER]

theorem flagOf_clearedFlag (d : Option RegData) :
    flagOf (clearedFlag d) = flagOf d &&& NOT_FLG_APPLICATION_VERIFIER := by
  rw [clearedFlag_eq]
  by_cases h : flagOf d &&& NOT_FLG_APPLICATION_VERIFIER = 0
  · rw [if_pos h, h]; rfl
  · rw [if_neg h]
    show (flagOf d &&& NOT_FLG_APPLICATION_VERIFIER) % 2 ^ 32 = _
    exact Nat.mod_eq_of_lt (and_mask_lt _)

theorem flagOf_hookedFlag (d : Option RegData) :
    flagOf (hookedFlag d) = flagOf d ||| FLG_APPLICATION_VERIFIER := by
  rw [hookedFlag_eq]
  show (flagOf d ||| FLG_APPLICATION_VERIFIER) % 2 ^ 32 = _
  apply Nat.mod_eq_of_lt
  exact Nat.or_lt_two_pow (flagOf_lt d) (by norm_num [FLG_APPLICATION_VERIFIER])

/-! ## Per-target removal and registration without a concurrent writer -/

theorem clearFlag_eq (env : Env) (t : String) (s : Sys) :
    UninstallForExecutable.clearFlag env t s =
      if flagOf (seenFlag env s t) &&& NOT_FLG_APPLICATION_VERIFIER = 0 then
        RegDeleteKeyValueW env t "GlobalFlag" s
      else
        RegSetKeyValueW env t "GlobalFlag"
          (RegData.dword (flagOf (seenFlag env s t) &&& NOT_FLG_APPLICATION_VERIFIER)) s := by
  unfold UninstallForExecutable.clearFlag
  simp only [RegGetValueW_DWORD_unchecked_eq]

theorem clearFlag_clock (env : Env) (t : String) (s : Sys) :
    (UninstallForExecutable.clearFlag env t s).2.clock = s.clock + 1 := by
  rw [clearFlag_eq]
  split
  · exact RegDeleteKeyValueW_clock _ _ _ _
  · exact RegSetKeyValueW_clock _ _ _ _ _

theorem clearFlag_store {env : Env} (hq : Quiet env) (t : String) (s : Sys) :
    (UninstallForExecutable.clearFlag env t s).2.store =
      if (env s.clock).err = 0 then
        s.store.put t "GlobalFlag" (clearedFlag (seenFlag env s t))
      else s.store := by
  rw [clearFlag_eq, clearedFlag_eq]
  split
  · exact RegDeleteKeyValueW_store hq _ _ _
  · exact RegSetKeyValueW_store hq _ _ _ _

theorem clearFlag_ret_of_fault (env : Env) (t : String) (s : Sys)
    (h : (env s.clock).err ≠ 0) :
    (UninstallForExecutable.clearFlag env t s).1 = (env s.clock).err := by
  rw [clearFlag_eq]
  split
  · rw [RegDeleteKeyValueW_ret, if_neg h]
  · exact RegSetKeyValueW_ret _ _ _ _ _

/-- Without a concurrent writer the re-read has the bit clear exactly when the
flag call was carried out or the bit was clear before. -/
theorem reread_clear_iff {env : Env} (hq : Quiet env) (t : String) (s : Sys) :
    RegGetValueW_DWORD (UninstallForExecutable.clearFlag env t s).2.store t "GlobalFlag"
        &&& FLG_APPLICATION_VERIFIER = 0 ↔
      ((env s.clock).err = 0 ∨
        flagOf (s.store.reg t "GlobalFlag") &&& FLG_APPLICATION_VERIFIER = 0) := by
  rw [clearFlag_store hq, RegGetValueW_DWORD_eq]
  by_cases h : (env s.clock).err = 0
  · simp only [h, if_true, true_or, iff_true, Store.put_reg, and_self]
    rw [flagOf_clearedFlag]
    exact and_mask_and_flg _
  · simp only [h, if_false, false_or]

theorem UninstallForExecutable_ret {env : Env} (hq : Quiet env) (t : String) (s : Sys) :
    (UninstallForExecutable env t s).1 =
      if (env s.clock).err = 0 ∨
          flagOf (s.store.reg t "GlobalFlag") &&& FLG_APPLICATION_VERIFIER = 0 then 0
      else (env s.clock).err := by
  rw [UninstallForExecutable_eq]
  by_cases h : (env s.clock).err = 0 ∨
      flagOf (s.store.reg t "GlobalFlag") &&& FLG_APPLICATION_VERIFIER = 0
  · rw [if_pos ((reread_clear_iff hq t s).2 h), if_pos h]
  · rw [if_neg (fun h2 => h ((reread_clear_iff hq t s).1 h2)), if_neg h]
    exact clearFlag_ret_of_fault env t s (fun h0 => h (Or.inl h0))

theorem UninstallForExecutable_store {env : Env} (hq : Quiet env) (t : String) (s : Sys) :
    (UninstallForExecutable env t s).2.store =
      if (env s.clock).err = 0 then
        (if (env (s.clock + 1)).err = 0 then
          (s.store.put t "GlobalFlag" (clearedFlag (seenFlag env s t))).put
            t "VerifierDlls" none
        else s.store.put t "GlobalFlag" (clearedFlag (seenFlag env s t)))
      else if flagOf (s.store.reg t "GlobalFlag") &&& FLG_APPLICATION_VERIFIER = 0 then
        (if (env (s.clock + 1)).err = 0 then s.store.put t "VerifierDlls" none else s.store)
      else s.store := by
  rw [UninstallForExecutable_eq]
  by_cases h : (env s.clock).err = 0 ∨
      flagOf (s.store.reg t "GlobalFlag") &&& FLG_APPLICATION_VERIFIER = 0
  · rw [if_pos ((reread_clear_iff hq t s).2 h)]
    simp only [RegDeleteKeyValueW_store hq, clearFlag_clock, clearFlag_store hq]
    by_cases h0 : (env s.clock).err = 0
    · simp only [h0, if_true]
    · have h1 := h.resolve_left h0
      simp only [h0, h1, if_true, if_false]
  · rw [if_neg (fun h2 => h ((reread_clear_iff hq t s).1 h2))]
    rw [clearFlag_store hq]
    have h0 : ¬ (env s.clock).err = 0 := fun h0 => h (Or.inl h0)
    have h1 : ¬ flagOf (s.store.reg t "GlobalFlag") &&& FLG_APPLICATION_VERIFIER = 0 :=
      fun h1 => h (Or.inr h1)
    simp only [h0, h1, if_false]

theorem InstallForExecutable_ret (env : Env) (t : String) (s : Sys) :
    (InstallForExecutable env t s).1 =
      if (env s.clock).err = 0 then (env (s.clock + 1)).err else (env s.clock).err := by
  rw [InstallForExecutable_eq]
  simp only [RegSetKeyValueW_ret]
  split
  · rw [RegSetKeyValueW_ret, RegSetKeyValueW_clock]
  · rw [RegSetKeyValueW_ret]

theorem InstallForExecutable_store {env : Env} (hq : Quiet env) (t : String) (s : Sys) :
    (InstallForExecutable env t s).2.store =
      if (env s.clock).err = 0 then
        (if (env (s.clock + 1)).err = 0 then
          (s.store.put t "GlobalFlag" (hookedFlag (seenFlag env s t))).put
            t "VerifierDlls" (some (RegData.sz kPatcherDllName))
        else s.store.put t "GlobalFlag" (hookedFlag (seenFlag env s t)))
      else s.store := by
  rw [InstallForExecutable_eq]
  simp only [RegSetKeyValueW_ret, RegGetValueW_DWORD_unchecked_eq, hookedFlag_eq]
  split
  · rename_i h0
    simp only [RegSetKeyValueW_store hq, RegSetKeyValueW_clock, h0, if_true]
  · rename_i h0
    simp only [RegSetKeyValueW_store hq, h0, if_false]

/-! ## The sequencers, step by step -/

theorem UninstallInternal_loop_cons (env : Env) (t : String) (rest : List String) (r : Nat)
    (b : Bool) (s : Sys) :
    UninstallInternal.loop env (t :: rest) r b s =
      if (UninstallForExecutable env t s).1 = 0 then
        UninstallInternal.loop env rest 0 false (UninstallForExecutable env t s).2
      else
        ((UninstallForExecutable env t s).1, true, (UninstallForExecutable env t s).2) := by
  by_cases h : (UninstallForExecutable env t s).1 = 0
  · rw [if_pos h]
    simp only [UninstallInternal.loop, h, bne_self_eq_false, Bool.false_eq_true, if_false]
  · rw [if_neg h]
    have hb : ((UninstallForExecutable env t s).1 != 0) = true := bne_iff_ne.2 h
    simp only [UninstallInternal.loop, hb, if_true]

theorem UninstallInternal_eq (env : Env) (s : Sys) :
    UninstallInternal env s =
      if (UninstallInternal.loop env remove_from 0 false s).2.1 = true then
        ((UninstallInternal.loop env remove_from 0 false s).1,
          (UninstallInternal.loop env remove_from 0 false s).2.2)
      else nuke_file env (UninstallInternal.loop env remove_from 0 false s).2.2 := rfl

theorem Install_eq (env : Env) (blob : List Nat) (boxes : CheckBoxes) (s : Sys) :
    Install env blob boxes s =
      if (UninstallInternal env s).1 ≠ 0 then
        (InstallResult.uninstallFailed, (UninstallInternal env s).2)
      else if (write_file env blob (UninstallInternal env s).2).1 ≠ 0 then
        (InstallResult.writeFailed (write_file env blob (UninstallInternal env s).2).1,
          (write_file env blob (UninstallInternal env s).2).2)
      else if (InstallForExecutable env "winlogon.exe"
          (write_file env blob (UninstallInternal env s).2).2).1 ≠ 0 then
        (InstallResult.mainHookFailed
            (InstallForExecutable env "winlogon.exe"
              (write_file env blob (UninstallInternal env s).2).2).1,
          (UninstallInternal env (InstallForExecutable env "winlogon.exe"
              (write_file env blob (UninstallInternal env s).2).2).2).2)
      else
        (InstallResult.succeeded
            (Install.loop env boxes checks (InstallForExecutable env "winlogon.exe"
              (write_file env blob (UninstallInternal env s).2).2).2).1,
          (Install.loop env boxes checks (InstallForExecutable env "winlogon.exe"
              (write_file env blob (UninstallInternal env s).2).2).2).2) := rfl

theorem Install_loop_cons (env : Env) (boxes : CheckBoxes) (check : (CheckBoxes → Bool) × String)
    (rest : List ((CheckBoxes → Bool) × String)) (s : Sys) :
    Install.loop env boxes (check :: rest) s =
      if check.1 boxes = true then
        (if (InstallForExecutable env check.2 s).1 = 0 then
            (Install.loop env boxes rest (InstallForExecutable env check.2 s).2).1
          else (check.2, (InstallForExecutable env check.2 s).1) ::
            (Install.loop env boxes rest (InstallForExecutable env check.2 s).2).1,
          (Install.loop env boxes rest (InstallForExecutable env check.2 s).2).2)
      else Install.loop env boxes rest s := rfl

/-- A property of the store kept by every per-target removal is kept by the
removal loop. -/
theorem UninstallInternal_loop_invariant (env : Env) (P : Store → Prop)
    (hU : ∀ t s, P s.store → P (UninstallForExecutable env t s).2.store) :
    ∀ (l : List String) (r : Nat) (b : Bool) (s : Sys), P s.store →
      P (UninstallInternal.loop env l r b s).2.2.store := by
  intro l
  induction l with
  | nil => intro r b s h; exact h
  | cons t rest ih =>
    intro r b s h
    rw [UninstallInternal_loop_cons]
    split
    · exact ih _ _ _ (hU t s h)
    · exact hU t s h

theorem UninstallInternal_invariant (env : Env) (P : Store → Prop)
    (hU : ∀ t s, P s.store → P (UninstallForExecutable env t s).2.store)
    (hN : ∀ s, P s.store → P (nuke_file env s).2.store) (s : Sys) (h : P s.store) :
    P (UninstallInternal env s).2.store := by
  rw [UninstallInternal_eq]
  split
  · exact UninstallInternal_loop_invariant env P hU _ _ _ _ h
  · exact hN _ (UninstallInternal_loop_invariant env P hU _ _ _ _ h)

theorem Install_loop_invariant (env : Env) (boxes : CheckBoxes) (P : Store → Prop)
    (hI : ∀ t s, P s.store → P (InstallForExecutable env t s).2.store) :
    ∀ (l : List ((CheckBoxes → Bool) × String)) (s : Sys), P s.store →
      P (Install.loop env boxes l s).2.store := by
  intro l
  induction l with
  | nil => intro s h; exact h
  | cons c rest ih =>
    intro s h
    rw [Install_loop_cons]
    split
    · exact ih _ (hI _ _ h)
    · exact ih _ h

theorem Install_invariant (env : Env) (P : Store → Prop)
    (hU : ∀ t s, P s.store → P (UninstallForExecutable env t s).2.store)
    (hN : ∀ s, P s.store → P (nuke_file env s).2.store)
    (hW : ∀ b s, P s.store → P (write_file env b s).2.store)
    (hI : ∀ t s, P s.store → P (InstallForExecutable env t s).2.store)
    (blob : List Nat) (boxes : CheckBoxes) (s : Sys) (h : P s.store) :
    P (Install env blob boxes s).2.store := by
  have h1 := UninstallInternal_invariant env P hU hN s h
  have h2 := hW blob _ h1
  have h3 := hI "winlogon.exe" _ h2
  rw [Install_eq]
  split
  · exact h1
  · split
    · exact h2
    · split
      · exact UninstallInternal_invariant env P hU hN _ h3
      · exact Install_loop_invariant env boxes P hI _ _ h3

/-! ## Foreign flag bits (C6) -/

theorem ForeignBits_put_other {executable : String} {c : Nat} {st : Store}
    (h : ForeignBits executable c st) (t n : String) (d : Option RegData)
    (hn : n ≠ "GlobalFlag") : ForeignBits executable c (st.put t n d) := by
  obtain ⟨g, hg, hc⟩ := h
  refine ⟨g, ?_, hc⟩
  rw [Store.put_reg, if_neg (fun h2 => hn h2.2.symm)]
  exact hg

theorem ForeignBits_put_cleared {executable : String} {c : Nat} {st : Store}
    (h : ForeignBits executable c st) (hc0 : c ≠ 0) (t : String) :
    ForeignBits executable c (st.put t "GlobalFlag" (clearedFlag (st.reg t "GlobalFlag"))) := by
  obtain ⟨g, hg, hc⟩ := h
  by_cases ht : executable = t
  · subst ht
    have hflag : flagOf (st.reg executable "GlobalFlag") &&& NOT_FLG_APPLICATION_VERIFIER = c := by
      rw [hg]
      show (g % 2 ^ 32) &&& 0xFFFFFEFF = c
      rw [mod_and_mask]
      exact hc
    refine ⟨c, ?_, ?_⟩
    · rw [Store.put_reg, if_pos ⟨rfl, rfl⟩, clearedFlag_eq, hflag, if_neg hc0]
    · rw [← hflag]
      exact and_mask_and_mask _
  · refine ⟨g, ?_, hc⟩
    rw [Store.put_reg, if_neg (fun h2 => ht h2.1)]
    exact hg

theorem ForeignBits_put_hooked {executable : String} {c : Nat} {st : Store}
    (h : ForeignBits executable c st) (t : String) :
    ForeignBits executable c (st.put t "GlobalFlag" (hookedFlag (st.reg t "GlobalFlag"))) := by
  obtain ⟨g, hg, hc⟩ := h
  by_cases ht : executable = t
  · subst ht
    refine ⟨flagOf (st.reg executable "GlobalFlag") ||| FLG_APPLICATION_VERIFIER, ?_, ?_⟩
    · rw [Store.put_reg, if_pos ⟨rfl, rfl⟩, hookedFlag_eq]
    · rw [hg]
      show ((g % 2 ^ 32) ||| 0x100) &&& 0xFFFFFEFF = c
      rw [or_flg_and_mask, mod_and_mask]
      exact hc
  · refine ⟨g, ?_, hc⟩
    rw [Store.put_reg, if_neg (fun h2 => ht h2.1)]
    exact hg

theorem ForeignBits_UninstallForExecutable {env : Env} (hq : Quiet env)
    (hr : ReadsSucceed env) {executable : String}
    {c : Nat} (hc0 : c ≠ 0) (t : String) (s : Sys) (h : ForeignBits executable c s.store) :
    ForeignBits executable c (UninstallForExecutable env t s).2.store := by
  rw [UninstallForExecutable_store hq, seenFlag_of_ReadsSucceed hr]
  have h1 := ForeignBits_put_cleared h hc0 t
  have h2 := ForeignBits_put_other h1 t "VerifierDlls" none VerifierDlls_ne_GlobalFlag
  have h3 := ForeignBits_put_other h t "VerifierDlls" none VerifierDlls_ne_GlobalFlag
  repeat' split
  all_goals assumption

theorem ForeignBits_InstallForExecutable {env : Env} (hq : Quiet env)
    (hr : ReadsSucceed env) {executable : String}
    {c : Nat} (t : String) (s : Sys) (h : ForeignBits executable c s.store) :
    ForeignBits executable c (InstallForExecutable env t s).2.store := by
  rw [InstallForExecutable_store hq, seenFlag_of_ReadsSucceed hr]
  have h1 := ForeignBits_put_hooked h t
  have h2 := ForeignBits_put_other h1 t "VerifierDlls" (some (RegData.sz kPatcherDllName))
    VerifierDlls_ne_GlobalFlag
  repeat' split
  all_goals assumption

theorem ForeignBits_nuke_file {env : Env} (hq : Quiet env) {executable : String}
    {c : Nat} (s : Sys) (h : ForeignBits executable c s.store) :
    ForeignBits executable c (nuke_file env s).2.store := by
  rw [nuke_file_store hq]
  split
  · exact h
  · exact h

theorem ForeignBits_write_file {env : Env} (hq : Quiet env) {executable : String}
    {c : Nat} (bytes : List Nat) (s : Sys) (h : ForeignBits executable c s.store) :
    ForeignBits executable c (write_file env bytes s).2.store := by
  rw [write_file_store hq]
  split
  · exact h
  · exact h

/-- C6, counterexample. On the shared system the `GlobalFlag` of `winlogon.exe`
is `0x102`, with the foreign bit `0x2`.  When the flag read that opens the call
fails, `UninstallForExecutable` takes the flag for zero and deletes the value,
and `InstallForExecutable` stores `0x100`; in both cases bit `0x2` is lost,
and it is lost after a whole `Uninstall` and a whole `Install` as well. -/
theorem foreign_flag_bits_lost_on_failed_read :
    sharedStore.reg "winlogon.exe" "GlobalFlag" = some (RegData.dword 0x102) ∧
      0x102 &&& NOT_FLG_APPLICATION_VERIFIER ≠ 0 ∧
      (UninstallForExecutable blindEnv "winlogon.exe"
        (Sys.start sharedStore)).2.store.reg "winlogon.exe" "GlobalFlag" = none ∧
      (InstallForExecutable blindEnv "winlogon.exe"
        (Sys.start sharedStore)).2.store.reg "winlogon.exe" "GlobalFlag" =
          some (RegData.dword 0x100) ∧
      (Uninstall blindEnv (Sys.start sharedStore)).store.reg "winlogon.exe" "GlobalFlag" = none ∧
      (Install blindEnv blobMZ ⟨false, false, false⟩
        (Sys.start sharedStore)).2.store.reg "winlogon.exe" "GlobalFlag" =
          some (RegData.dword 0x100) := by
  decide

/-- C6, amended. Foreign flag bits are preserved while the flag reads succeed:
without a concurrent writer, with no failing flag read and for every pattern of
failing store-changing calls, if the `GlobalFlag` of an executable is a
`REG_DWORD` `f` with a bit outside `0x100` set, then after
`InstallForExecutable`, after `UninstallForExecutable` (for this or any other
target), after a whole `Uninstall` and after a whole `Install` the value is
still a `REG_DWORD` `g`, with `g & ~0x100 = f & ~0x100`. -/
theorem foreign_flag_bits_preserved (env : Env) (hq : Quiet env) (hr : ReadsSucceed env)
    (executable : String) (f : Nat) (s : Sys)
    (hf : s.store.reg executable "GlobalFlag" = some (RegData.dword f))
    (hne : f &&& NOT_FLG_APPLICATION_VERIFIER ≠ 0) :
    (∀ t, ∃ g, (InstallForExecutable env t s).2.store.reg executable "GlobalFlag" =
        some (RegData.dword g) ∧
        g &&& NOT_FLG_APPLICATION_VERIFIER = f &&& NOT_FLG_APPLICATION_VERIFIER) ∧
    (∀ t, ∃ g, (UninstallForExecutable env t s).2.store.reg executable "GlobalFlag" =
        some (RegData.dword g) ∧
        g &&& NOT_FLG_APPLICATION_VERIFIER = f &&& NOT_FLG_APPLICATION_VERIFIER) ∧
    (∃ g, (Uninstall env s).store.reg executable "GlobalFlag" = some (RegData.dword g) ∧
        g &&& NOT_FLG_APPLICATION_VERIFIER = f &&& NOT_FLG_APPLICATION_VERIFIER) ∧
    (∀ blob boxes, ∃ g, (Install env blob boxes s).2.store.reg executable "GlobalFlag" =
        some (RegData.dword g) ∧
        g &&& NOT_FLG_APPLICATION_VERIFIER = f &&& NOT_FLG_APPLICATION_VERIFIER) := by
  have h : ForeignBits executable (f &&& NOT_FLG_APPLICATION_VERIFIER) s.store := ⟨f, hf, rfl⟩
  refine ⟨fun t => ForeignBits_InstallForExecutable hq hr t s h,
    fun t => ForeignBits_UninstallForExecutable hq hr hne t s h, ?_, ?_⟩
  · exact UninstallInternal_invariant env _
      (fun t s => ForeignBits_UninstallForExecutable hq hr hne t s)
      (fun s => ForeignBits_nuke_file hq s) s h
  · intro blob boxes
    exact Install_invariant env _
      (fun t s => ForeignBits_UninstallForExecutable hq hr hne t s)
      (fun s => ForeignBits_nuke_file hq s)
      (fun b s => ForeignBits_write_file hq b s)
      (fun t s => ForeignBits_InstallForExecutable hq hr t s) blob boxes s h

/-- C6 amended, at work: bit `0x2` of the `GlobalFlag` of `winlogon.exe` on the
shared system, with the second store-changing call failing and every flag read
carried out. -/
theorem foreign_flag_bits_preserved_witness :
    (∃ g, (InstallForExecutable (failAt 1 5) "winlogon.exe" (Sys.start sharedStore)).2.store.reg
        "winlogon.exe" "GlobalFlag" = some (RegData.dword g) ∧
        g &&& NOT_FLG_APPLICATION_VERIFIER = 0x102 &&& NOT_FLG_APPLICATION_VERIFIER) ∧
    (∃ g, (UninstallForExecutable (failAt 1 5) "winlogon.exe" (Sys.start sharedStore)).2.store.reg
        "winlogon.exe" "GlobalFlag" = some (RegData.dword g) ∧
        g &&& NOT_FLG_APPLICATION_VERIFIER = 0x102 &&& NOT_FLG_APPLICATION_VERIFIER) ∧
    (∃ g, (Uninstall (failAt 1 5) (Sys.start sharedStore)).store.reg
        "winlogon.exe" "GlobalFlag" = some (RegData.dword g) ∧
        g &&& NOT_FLG_APPLICATION_VERIFIER = 0x102 &&& NOT_FLG_APPLICATION_VERIFIER) ∧
    (∃ g, (Install (failAt 1 5) blobMZ ⟨true, false, false⟩ (Sys.start sharedStore)).2.store.reg
        "winlogon.exe" "GlobalFlag" = some (RegData.dword g) ∧
        g &&& NOT_FLG_APPLICATION_VERIFIER = 0x102 &&& NOT_FLG_APPLICATION_VERIFIER) :=
  have h := foreign_flag_bits_preserved (failAt 1 5) (fun _ _ => rfl) (fun _ => rfl)
    "winlogon.exe" 0x102 (Sys.start sharedStore) rfl (by decide)
  ⟨h.1 "winlogon.exe", h.2.1 "winlogon.exe", h.2.2.1, h.2.2.2 blobMZ ⟨true, false, false⟩⟩

/-! ## Status facts -/

theorem IsInstalledForExecutable_of_hook (st : Store) (t : String) (g : Nat)
    (hg : st.reg t "GlobalFlag" = some (RegData.dword g))
    (hbit : g &&& FLG_APPLICATION_VERIFIER ≠ 0)
    (hv : st.reg t "VerifierDlls" = some (RegData.sz kPatcherDllName)) :
    IsInstalledForExecutable st t = true := by
  rw [IsInstalledForExecutable_eq_reg]
  unfold Evaluate.reg
  rw [hg, hv]
  have hb : Nat.testBit g 8 = true := by
    cases h8 : Nat.testBit g 8
    · exact absurd ((and_flg_eq_zero_iff g).2 h8) hbit
    · rfl
  simp [hb]

theorem installed_of_registered (blob : List Nat) (st : Store) (hb : blob ≠ [])
    (hf : st.file = some blob) (hr : IsInstalledForExecutable st "winlogon.exe" = true) :
    (UpdatePatcherState blob st)._is_installed = PatcherState.Yes := by
  cases blob with
  | nil => exact absurd rfl hb
  | cons b bs => simp [UpdatePatcherState, read_file, hf, hr]

theorem UninstallInternal_loop_faultless {env : Env} (hq : Quiet env) (hf : Faultless env) :
    ∀ (l : List String) (s : Sys),
      (UninstallInternal.loop env l 0 false s).1 = 0 ∧
      (UninstallInternal.loop env l 0 false s).2.1 = false := by
  intro l
  induction l with
  | nil => intro s; exact ⟨rfl, rfl⟩
  | cons t rest ih =>
    intro s
    have h0 : (UninstallForExecutable env t s).1 = 0 := by
      rw [UninstallForExecutable_ret hq, if_pos (Or.inl (hf _).1)]
    rw [UninstallInternal_loop_cons, if_pos h0]
    exact ih _

theorem UninstallInternal_faultless {env : Env} (hq : Quiet env) (hf : Faultless env) (s : Sys) :
    (UninstallInternal env s).1 = 0 := by
  rw [UninstallInternal_eq, (UninstallInternal_loop_faultless hq hf remove_from s).2]
  simp only [Bool.false_eq_true, if_false]
  rw [nuke_file_ret]
  exact (hf _).1

theorem Install_loop_unchecked (env : Env) (s : Sys) :
    Install.loop env ⟨false, false, false⟩ checks s = ([], s) := rfl

/-! ## A successful install (C4) -/

theorem hooked_winlogon_facts (st : Store) (blob : List Nat) (d : Option RegData) :
    (Store.put (Store.put { st with file := some blob } "winlogon.exe" "GlobalFlag"
        (hookedFlag d)) "winlogon.exe" "VerifierDlls"
        (some (RegData.sz kPatcherDllName))).file = some blob ∧
    (Store.put (Store.put { st with file := some blob } "winlogon.exe" "GlobalFlag"
        (hookedFlag d)) "winlogon.exe" "VerifierDlls"
        (some (RegData.sz kPatcherDllName))).reg "winlogon.exe" "GlobalFlag" =
      some (RegData.dword (flagOf d ||| FLG_APPLICATION_VERIFIER)) ∧
    (Store.put (Store.put { st with file := some blob } "winlogon.exe" "GlobalFlag"
        (hookedFlag d)) "winlogon.exe" "VerifierDlls"
        (some (RegData.sz kPatcherDllName))).reg "winlogon.exe" "VerifierDlls" =
      some (RegData.sz kPatcherDllName) := by
  refine ⟨rfl, ?_, ?_⟩
  · rw [Store.put_reg, if_neg (fun h => GlobalFlag_ne_VerifierDlls h.2), Store.put_reg,
      if_pos ⟨rfl, rfl⟩, hookedFlag_eq]
  · rw [Store.put_reg, if_pos ⟨rfl, rfl⟩]

/-- C4. Postcondition of a successful install, without a concurrent writer and
for a non-empty payload: `Install` with no optional target checked ends with
"Installing succeeded" whenever no call fails; and whenever it ends so, the
shim file holds exactly the payload, the `GlobalFlag` of `winlogon.exe` is a
`REG_DWORD` with bit `0x100` set, its `VerifierDlls` is the shim file name, and
the status evaluates to installed = Yes. -/
theorem Install_success_postcondition (env : Env) (hq : Quiet env) (blob : List Nat)
    (hb : blob ≠ []) (s : Sys) :
    (Faultless env →
      (Install env blob ⟨false, false, false⟩ s).1 = InstallResult.succeeded []) ∧
    (∀ warnings,
      (Install env blob ⟨false, false, false⟩ s).1 = InstallResult.succeeded warnings →
      (Install env blob ⟨false, false, false⟩ s).2.store.file = some blob ∧
      (∃ g, (Install env blob ⟨false, false, false⟩ s).2.store.reg "winlogon.exe" "GlobalFlag" =
          some (RegData.dword g) ∧ g &&& FLG_APPLICATION_VERIFIER ≠ 0) ∧
      (Install env blob ⟨false, false, false⟩ s).2.store.reg "winlogon.exe" "VerifierDlls" =
        some (RegData.sz kPatcherDllName) ∧
      (UpdatePatcherState blob
        (Install env blob ⟨false, false, false⟩ s).2.store)._is_installed = PatcherState.Yes) := by
  constructor
  · intro hf
    rw [Install_eq]
    have h1 : (UninstallInternal env s).1 = 0 := UninstallInternal_faultless hq hf s
    have h2 : (write_file env blob (UninstallInternal env s).2).1 = 0 := by
      rw [write_file_ret]; exact (hf _).1
    have h3 : (InstallForExecutable env "winlogon.exe"
        (write_file env blob (UninstallInternal env s).2).2).1 = 0 := by
      rw [InstallForExecutable_ret, if_pos (hf _).1]; exact (hf _).1
    simp only [h1, h2, h3, ne_eq, not_true_eq_false, if_false, Install_loop_unchecked]
  · intro warnings hw
    rw [Install_eq] at hw ⊢
    by_cases h1 : (UninstallInternal env s).1 = 0
    swap
    · simp [h1] at hw
    by_cases h2 : (write_file env blob (UninstallInternal env s).2).1 = 0
    swap
    · simp [h1, h2] at hw
    by_cases h3 : (InstallForExecutable env "winlogon.exe"
        (write_file env blob (UninstallInternal env s).2).2).1 = 0
    swap
    · simp [h1, h2, h3] at hw
    simp only [h1, h2, h3, ne_eq, not_true_eq_false, if_false, Install_loop_unchecked]
    rw [write_file_ret] at h2
    rw [InstallForExecutable_ret] at h3
    have e0 : (env (write_file env blob (UninstallInternal env s).2).2.clock).err = 0 := by
      by_contra hne
      rw [if_neg hne] at h3
      exact hne h3
    rw [if_pos e0] at h3
    rw [InstallForExecutable_store hq, if_pos e0, if_pos h3, write_file_store hq, if_pos h2]
    obtain ⟨hfile, hflag, hdll⟩ := hooked_winlogon_facts (UninstallInternal env s).2.store blob
      (seenFlag env (write_file env blob (UninstallInternal env s).2).2 "winlogon.exe")
    have hbit := or_flg_and_flg
      (flagOf (seenFlag env (write_file env blob (UninstallInternal env s).2).2 "winlogon.exe"))
    exact ⟨hfile, ⟨_, hflag, hbit⟩, hdll,
      installed_of_registered blob _ hb hfile
        (IsInstalledForExecutable_of_hook _ _ _ hflag hbit hdll)⟩

/-- C4 at work: a first install on the fresh system with no call failing. -/
theorem Install_success_postcondition_witness :
    (Install calmEnv blobMZ ⟨false, false, false⟩ (Sys.start freshStore)).2.store.file =
        some blobMZ ∧
      (∃ g, (Install calmEnv blobMZ ⟨false, false, false⟩ (Sys.start freshStore)).2.store.reg
          "winlogon.exe" "GlobalFlag" = some (RegData.dword g) ∧
          g &&& FLG_APPLICATION_VERIFIER ≠ 0) ∧
      (Install calmEnv blobMZ ⟨false, false, false⟩ (Sys.start freshStore)).2.store.reg
          "winlogon.exe" "VerifierDlls" = some (RegData.sz kPatcherDllName) ∧
      (UpdatePatcherState blobMZ
        (Install calmEnv blobMZ ⟨false, false, false⟩
          (Sys.start freshStore)).2.store)._is_installed = PatcherState.Yes :=
  (Install_success_postcondition calmEnv (fun _ _ => rfl) blobMZ (by decide)
    (Sys.start freshStore)).2 []
    ((Install_success_postcondition calmEnv (fun _ _ => rfl) blobMZ (by decide)
      (Sys.start freshStore)).1 (fun _ => ⟨rfl, rfl⟩))

/-! ## A failed install (C5) -/

theorem drop_append_length {α : Type} (l new : List α) : (l ++ new).drop l.length = new := by
  induction l with
  | nil => rfl
  | cons a l ih => exact ih

theorem clearFlag_trace (env : Env) (t : String) (s : Sys) :
    ∃ c, (UninstallForExecutable.clearFlag env t s).2.trace = s.trace ++ [c] ∧
      c.subkey = some t := by
  rw [clearFlag_eq]
  split
  · exact ⟨_, RegDeleteKeyValueW_trace _ _ _ _, rfl⟩
  · exact ⟨_, RegSetKeyValueW_trace _ _ _ _ _, rfl⟩

/-- C7, counterexample. `explorer.exe` carries the hook of another tool, with
`VerifierDlls = "other.dll"`; after `UninstallForExecutable` with no call
failing the value is gone. -/
theorem UninstallForExecutable_deletes_foreign_VerifierDlls :
    foreignStore.reg "explorer.exe" "VerifierDlls" = some (RegData.sz "other.dll".toList) ∧
      _wcsicmp "other.dll".toList kPatcherDllName ≠ 0 ∧
      (UninstallForExecutable calmEnv "explorer.exe"
        (Sys.start foreignStore)).2.store.reg "explorer.exe" "VerifierDlls" = none := by
  decide

/-- C7, amended. Without a concurrent writer, for every target, every store
(whatever string `VerifierDlls` holds and whoever owns it) and every pattern
of failing calls: after `UninstallForExecutable` the `VerifierDlls` value of the
target is unchanged or absent, never another string; it is unchanged when the
re-read of `GlobalFlag` has bit `0x100` set; when the re-read has the bit clear
a delete of `VerifierDlls` is issued, and the value is absent afterwards if that
delete is carried out.  After a whole `Uninstall` the `VerifierDlls` value of
every executable is likewise unchanged or absent. -/
theorem UninstallForExecutable_VerifierDlls_fate (env : Env) (hq : Quiet env) (t : String)
    (s : Sys) :
    ((UninstallForExecutable env t s).2.store.reg t "VerifierDlls" =
        s.store.reg t "VerifierDlls" ∨
      (UninstallForExecutable env t s).2.store.reg t "VerifierDlls" = none) ∧
    (RegGetValueW_DWORD (UninstallForExecutable.clearFlag env t s).2.store t "GlobalFlag"
        &&& FLG_APPLICATION_VERIFIER ≠ 0 →
      (UninstallForExecutable env t s).2.store.reg t "VerifierDlls" =
        s.store.reg t "VerifierDlls") ∧
    (RegGetValueW_DWORD (UninstallForExecutable.clearFlag env t s).2.store t "GlobalFlag"
        &&& FLG_APPLICATION_VERIFIER = 0 →
      Call.RegDeleteKeyValueW t "VerifierDlls" ∈
        (UninstallForExecutable env t s).2.trace.drop s.trace.length ∧
      ((env (s.clock + 1)).err = 0 →
        (UninstallForExecutable env t s).2.store.reg t "VerifierDlls" = none)) ∧
    (∀ k, (Uninstall env s).store.reg k "VerifierDlls" = s.store.reg k "VerifierDlls" ∨
      (Uninstall env s).store.reg k "VerifierDlls" = none) := by
  have hstore : ∀ (k t : String) (s : Sys) (v : Option RegData),
      (s.store.reg k "VerifierDlls" = v ∨ s.store.reg k "VerifierDlls" = none) →
      ((UninstallForExecutable env t s).2.store.reg k "VerifierDlls" = v ∨
        (UninstallForExecutable env t s).2.store.reg k "VerifierDlls" = none) := by
    intro k t s v h
    rw [UninstallForExecutable_store hq]
    have hgf : ∀ d, (s.store.put t "GlobalFlag" d).reg k "VerifierDlls" =
        s.store.reg k "VerifierDlls" := by
      intro d
      rw [Store.put_reg, if_neg (fun h2 => VerifierDlls_ne_GlobalFlag h2.2)]
    have hvd : ∀ (st : Store), (st.reg k "VerifierDlls" = v ∨ st.reg k "VerifierDlls" = none) →
        ((st.put t "VerifierDlls" none).reg k "VerifierDlls" = v ∨
          (st.put t "VerifierDlls" none).reg k "VerifierDlls" = none) := by
      intro st hst
      rw [Store.put_reg]
      by_cases hk : k = t
      · rw [if_pos ⟨hk, rfl⟩]; exact Or.inr rfl
      · rw [if_neg (fun h2 => hk h2.1)]; exact hst
    repeat' split
    · exact hvd _ (by rw [hgf]; exact h)
    · rw [hgf]; exact h
    · exact hvd _ h
    · exact h
    · exact h
  refine ⟨hstore t t s _ (Or.inl rfl), ?_, ?_, ?_⟩
  · intro hset
    have hne : ¬ ((env s.clock).err = 0 ∨
        flagOf (s.store.reg t "GlobalFlag") &&& FLG_APPLICATION_VERIFIER = 0) :=
      fun h => hset ((reread_clear_iff hq t s).2 h)
    rw [UninstallForExecutable_store hq, if_neg (fun h => hne (Or.inl h)),
      if_neg (fun h => hne (Or.inr h))]
  · intro hclear
    constructor
    · obtain ⟨c, hc, _⟩ := clearFlag_trace env t s
      rw [UninstallForExecutable_eq, if_pos hclear]
      show Call.RegDeleteKeyValueW t "VerifierDlls" ∈
        ((RegDeleteKeyValueW env t "VerifierDlls"
          (UninstallForExecutable.clearFlag env t s).2).2.trace).drop s.trace.length
      rw [RegDeleteKeyValueW_trace, hc, List.append_assoc, drop_append_length]
      simp
    · intro h1
      have hor := (reread_clear_iff hq t s).1 hclear
      rw [UninstallForExecutable_store hq]
      by_cases h0 : (env s.clock).err = 0
      · rw [if_pos h0, if_pos h1, Store.put_reg, if_pos ⟨rfl, rfl⟩]
      · rw [if_neg h0, if_pos (hor.resolve_left h0), if_pos h1, Store.put_reg, if_pos ⟨rfl, rfl⟩]
  · intro k
    exact UninstallInternal_invariant env
      (fun st => st.reg k "VerifierDlls" = s.store.reg k "VerifierDlls" ∨
        st.reg k "VerifierDlls" = none)
      (fun t s2 h => hstore k t s2 _ h)
      (fun s2 h => by
        rw [nuke_file_store hq]
        split
        · exact h
        · exact h)
      s (Or.inl rfl)

/-- C7 amended, at work: on the system hooked by another tool the flag delete of
`explorer.exe` fails, the re-read has the bit set, and `other.dll` stays. -/
theorem UninstallForExecutable_VerifierDlls_fate_witness :
    (UninstallForExecutable (failAt 0 5) "explorer.exe"
        (Sys.start foreignStore)).2.store.reg "explorer.exe" "VerifierDlls" =
      (Sys.start foreignStore).store.reg "explorer.exe" "VerifierDlls" :=
  (UninstallForExecutable_VerifierDlls_fate (failAt 0 5) (fun _ _ => rfl) "explorer.exe"
    (Sys.start foreignStore)).2.1 (by decide)

/-! ## The removal loop stops at the first failure (C10) -/

theorem UninstallForExecutable_trace (env : Env) (t : String) (s : Sys) :
    ∃ new, (UninstallForExecutable env t s).2.trace = s.trace ++ new ∧
      ∀ c ∈ new, c.subkey = some t := by
  obtain ⟨c, hc, hsub⟩ := clearFlag_trace env t s
  rw [UninstallForExecutable_eq]
  split
  · refine ⟨[c, Call.RegDeleteKeyValueW t "VerifierDlls"], ?_, ?_⟩
    · show (RegDeleteKeyValueW env t "VerifierDlls"
        (UninstallForExecutable.clearFlag env t s).2).2.trace = _
      rw [RegDeleteKeyValueW_trace, hc, List.append_assoc]
      rfl
    · intro c2 hc2
      simp only [List.mem_cons, List.mem_singleton, List.not_mem_nil, or_false] at hc2
      rcases hc2 with rfl | rfl
      · exact hsub
      · rfl
  · refine ⟨[c], hc, ?_⟩
    intro c2 hc2
    simp only [List.mem_singleton] at hc2
    rw [hc2]
    exact hsub

theorem UninstallInternal_loop_trace (env : Env) :
    ∀ (l : List String) (r : Nat) (b : Bool) (s : Sys),
      ∃ new, (UninstallInternal.loop env l r b s).2.2.trace = s.trace ++ new ∧
        ∀ c ∈ new, ∃ t ∈ l, c.subkey = some t := by
  intro l
  induction l with
  | nil =>
    intro r b s
    exact ⟨[], (List.append_nil _).symm, fun c hc => absurd hc (List.not_mem_nil c)⟩
  | cons t rest ih =>
    intro r b s
    obtain ⟨new1, h1, hsub1⟩ := UninstallForExecutable_trace env t s
    rw [UninstallInternal_loop_cons]
    split
    · obtain ⟨new2, h2, hsub2⟩ := ih 0 false (UninstallForExecutable env t s).2
      refine ⟨new1 ++ new2, ?_, ?_⟩
      · rw [h2, h1, List.append_assoc]
      · intro c hc
        rcases List.mem_append.1 hc with hc | hc
        · exact ⟨t, List.mem_cons_self _ _, hsub1 c hc⟩
        · obtain ⟨t2, ht2, hs2⟩ := hsub2 c hc
          exact ⟨t2, List.mem_cons_of_mem _ ht2, hs2⟩
    · exact ⟨new1, h1, fun c hc => ⟨t, List.mem_cons_self _ _, hsub1 c hc⟩⟩

theorem UninstallInternal_loop_append (env : Env) (rest : List String) :
    ∀ (pre : List String) (r : Nat) (b : Bool) (s : Sys),
      (UninstallInternal.loop env pre r b s).2.1 = false →
      UninstallInternal.loop env (pre ++ rest) r b s =
        UninstallInternal.loop env rest (UninstallInternal.loop env pre r b s).1 false
          (UninstallInternal.loop env pre r b s).2.2 := by
  intro pre
  induction pre with
  | nil =>
    intro r b s h
    have hb : b = false := h
    subst hb
    rfl
  | cons t pre ih =>
    intro r b s h
    rw [UninstallInternal_loop_cons] at h ⊢
    rw [List.cons_append, UninstallInternal_loop_cons]
    by_cases h0 : (UninstallForExecutable env t s).1 = 0
    · rw [if_pos h0] at h ⊢
      rw [if_pos h0]
      exact ih _ _ _ h
    · rw [if_neg h0] at h
      cases h

/-- A property of the store kept by the removal for every executable of the
list is kept by the removal loop over the list. -/
theorem UninstallInternal_loop_invariant_mem (env : Env) (P : Store → Prop) :
    ∀ (l : List String),
      (∀ t ∈ l, ∀ s, P s.store → P (UninstallForExecutable env t s).2.store) →
      ∀ (r : Nat) (b : Bool) (s : Sys), P s.store →
        P (UninstallInternal.loop env l r b s).2.2.store := by
  intro l
  induction l with
  | nil => intro _ r b s h; exact h
  | cons t rest ih =>
    intro hU r b s h
    have ht := hU t (List.mem_cons_self _ _) s h
    rw [UninstallInternal_loop_cons]
    split
    · exact ih (fun t2 ht2 => hU t2 (List.mem_cons_of_mem _ ht2)) _ _ _ ht
    · exact ht

theorem UninstallForExecutable_other_target {env : Env} (hq : Quiet env) (t k n : String)
    (hk : k ≠ t) (s : Sys) :
    (UninstallForExecutable env t s).2.store.reg k n = s.store.reg k n := by
  rw [UninstallForExecutable_store hq]
  have hp : ∀ (st : Store) (m : String) (d : Option RegData),
      (st.put t m d).reg k n = st.reg k n := by
    intro st m d
    rw [Store.put_reg, if_neg (fun h2 => hk h2.1)]
  repeat' split
  all_goals simp only [hp]

/-- C10. Full removal stops at the first failing target.  `remove_from` is
winlogon.exe, explorer.exe, SystemSettings.exe, dwm.exe, LogonUI.exe, processed
in this order.  If the removals for the targets `pre` before `t` all returned
success and the removal for `t` returns a non-zero code, then `UninstallInternal`
returns that code in the state this removal left; it issues no call for a later
target and no `utl::nuke_file`; and, without a concurrent writer, the registry
values of all later targets are unchanged.  `utl::nuke_file` is called exactly
when the loop ended without a failure. -/
theorem UninstallInternal_stops_at_first_failure (env : Env) (s : Sys) :
    remove_from =
      ["winlogon.exe", "explorer.exe", "SystemSettings.exe", "dwm.exe", "LogonUI.exe"] ∧
    (∀ (pre : List String) (t : String) (post : List String),
      remove_from = pre ++ t :: post →
      (UninstallInternal.loop env pre 0 false s).2.1 = false →
      (UninstallForExecutable env t (UninstallInternal.loop env pre 0 false s).2.2).1 ≠ 0 →
      UninstallInternal env s =
          UninstallForExecutable env t (UninstallInternal.loop env pre 0 false s).2.2 ∧
        Call.nuke_file ∉ (UninstallInternal env s).2.trace.drop s.trace.length ∧
        (∀ later ∈ post, ∀ c ∈ (UninstallInternal env s).2.trace.drop s.trace.length,
          c.subkey ≠ some later) ∧
        (Quiet env → ∀ later ∈ post, ∀ n,
          (UninstallInternal env s).2.store.reg later n = s.store.reg later n)) ∧
    (Call.nuke_file ∈ (UninstallInternal env s).2.trace.drop s.trace.length ↔
      (UninstallInternal.loop env remove_from 0 false s).2.1 = false) := by
  refine ⟨rfl, ?_, ?_⟩
  · intro pre t post hsplit hpre hfail
    have hloop : UninstallInternal.loop env remove_from 0 false s =
        ((UninstallForExecutable env t (UninstallInternal.loop env pre 0 false s).2.2).1, true,
          (UninstallForExecutable env t (UninstallInternal.loop env pre 0 false s).2.2).2) := by
      rw [hsplit, UninstallInternal_loop_append env _ pre 0 false s hpre,
        UninstallInternal_loop_cons, if_neg hfail]
    have hres : UninstallInternal env s =
        UninstallForExecutable env t (UninstallInternal.loop env pre 0 false s).2.2 := by
      rw [UninstallInternal_eq, hloop]
      rfl
    have hnodup : (pre ++ t :: post).Nodup := by
      rw [← hsplit]; decide
    have hlater : ∀ later ∈ post, later ≠ t ∧ later ∉ pre := by
      intro later hl
      rw [List.nodup_append] at hnodup
      obtain ⟨_, htp, hdis⟩ := hnodup
      constructor
      · intro he
        subst he
        exact (List.nodup_cons.1 htp).1 hl
      · intro hp
        exact hdis hp (List.mem_cons_of_mem _ hl)
    obtain ⟨new1, h1, hsub1⟩ := UninstallInternal_loop_trace env pre 0 false s
    obtain ⟨new2, h2, hsub2⟩ := UninstallForExecutable_trace env t
      (UninstallInternal.loop env pre 0 false s).2.2
    have htr : (UninstallInternal env s).2.trace.drop s.trace.length = new1 ++ new2 := by
      rw [hres, h2, h1, List.append_assoc, drop_append_length]
    have hsub : ∀ c ∈ new1 ++ new2, ∃ u, (u ∈ pre ∨ u = t) ∧ c.subkey = some u := by
      intro c hc
      rcases List.mem_append.1 hc with hc | hc
      · obtain ⟨u, hu, hs⟩ := hsub1 c hc
        exact ⟨u, Or.inl hu, hs⟩
      · exact ⟨t, Or.inr rfl, hsub2 c hc⟩
    refine ⟨hres, ?_, ?_, ?_⟩
    · rw [htr]
      intro hmem
      obtain ⟨u, _, hs⟩ := hsub _ hmem
      cases hs
    · intro later hl c hc
      rw [htr] at hc
      obtain ⟨u, hu, hs⟩ := hsub c hc
      rw [hs]
      intro he
      have hul : u = later := Option.some.inj he
      subst hul
      rcases hu with hu | hu
      · exact (hlater u hl).2 hu
      · exact (hlater u hl).1 hu
    · intro hq later hl n
      rw [hres]
      have hpre_store : (UninstallInternal.loop env pre 0 false s).2.2.store.reg later n =
          s.store.reg later n :=
        UninstallInternal_loop_invariant_mem env
          (fun st => st.reg later n = s.store.reg later n) pre
          (fun u hu s2 h => by
            show (UninstallForExecutable env u s2).2.store.reg later n = s.store.reg later n
            rw [UninstallForExecutable_other_target hq u later n
              (fun he => (hlater later hl).2 (he ▸ hu))]
            exact h)
          0 false s rfl
      rw [UninstallForExecutable_other_target hq t later n (hlater later hl).1]
      exact hpre_store
  · obtain ⟨new1, h1, hsub1⟩ := UninstallInternal_loop_trace env remove_from 0 false s
    rw [UninstallInternal_eq]
    cases hb : (UninstallInternal.loop env remove_from 0 false s).2.1
    · simp only [Bool.false_eq_true, if_false, iff_true]
      rw [nuke_file_trace, h1, List.append_assoc, drop_append_length]
      simp
    · simp only [if_true, Bool.true_eq_false, iff_false]
      rw [h1, drop_append_length]
      intro hmem
      obtain ⟨u, _, hs⟩ := hsub1 _ hmem
      cases hs

/-- C10 at work: on the system hooked by another tool the removal for
`winlogon.exe` succeeds and the flag delete for `explorer.exe` fails; full
removal returns what the removal for `explorer.exe` returned, calls no
`utl::nuke_file` and leaves `dwm.exe` alone. -/
theorem UninstallInternal_stops_at_first_failure_witness :
    UninstallInternal (failAt 2 5) (Sys.start foreignStore) =
        UninstallForExecutable (failAt 2 5) "explorer.exe"
          (UninstallInternal.loop (failAt 2 5) ["winlogon.exe"] 0 false
            (Sys.start foreignStore)).2.2 ∧
      Call.nuke_file ∉ (UninstallInternal (failAt 2 5) (Sys.start foreignStore)).2.trace.drop
        (Sys.start foreignStore).trace.length ∧
      (UninstallInternal (failAt 2 5) (Sys.start foreignStore)).2.store.reg
          "dwm.exe" "GlobalFlag" =
        (Sys.start foreignStore).store.reg "dwm.exe" "GlobalFlag" :=
  have h := (UninstallInternal_stops_at_first_failure (failAt 2 5) (Sys.start foreignStore)).2.1
    ["winlogon.exe"] "explorer.exe" ["SystemSettings.exe", "dwm.exe", "LogonUI.exe"] rfl
    (by decide) (by decide)
  ⟨h.1, h.2.1, h.2.2.2 (fun _ _ => rfl) "dwm.exe" (by decide) "GlobalFlag"⟩

/-! ## The store after a run without failing calls -/

theorem clearedFlag_clearedFlag (d : Option RegData) :
    clearedFlag (clearedFlag d) = clearedFlag d := by
  rw [clearedFlag_eq (clearedFlag d), flagOf_clearedFlag]
  show (if (flagOf d &&& 0xFFFFFEFF) &&& 0xFFFFFEFF = 0 then none
    else some (RegData.dword ((flagOf d &&& 0xFFFFFEFF) &&& 0xFFFFFEFF))) = _
  rw [and_mask_and_mask]
  exact (clearedFlag_eq d).symm

theorem clearedFlag_hookedFlag (d : Option RegData) :
    clearedFlag (hookedFlag d) = clearedFlag d := by
  rw [clearedFlag_eq (hookedFlag d), flagOf_hookedFlag]
  show (if (flagOf d ||| 0x100) &&& 0xFFFFFEFF = 0 then none
    else some (RegData.dword ((flagOf d ||| 0x100) &&& 0xFFFFFEFF))) = _
  rw [or_flg_and_mask]
  exact (clearedFlag_eq d).symm

theorem hookedFlag_hookedFlag (d : Option RegData) :
    hookedFlag (hookedFlag d) = hookedFlag d := by
  rw [hookedFlag_eq (hookedFlag d), flagOf_hookedFlag, hookedFlag_eq d]
  show some (RegData.dword ((flagOf d ||| 0x100) ||| 0x100)) = _
  rw [Nat.or_assoc, Nat.or_self]
  rfl

theorem unhookedReg_cons (t : String) (l : List String)
    (reg : String → String → Option RegData) :
    unhookedReg l (unhookedReg [t] reg) = unhookedReg (t :: l) reg := by
  funext k n
  unfold unhookedReg
  by_cases hk : k = t
  · subst hk
    by_cases hl : k ∈ l <;> by_cases hg : n = "GlobalFlag" <;> by_cases hv : n = "VerifierDlls" <;>
      simp [hl, hg, hv, clearedFlag_clearedFlag]
  · by_cases hl : k ∈ l <;> simp [hl, hk]

theorem hookedReg_cons (t : String) (l : List String)
    (reg : String → String → Option RegData) :
    hookedReg l (hookedReg [t] reg) = hookedReg (t :: l) reg := by
  funext k n
  unfold hookedReg
  by_cases hk : k = t
  · subst hk
    by_cases hl : k ∈ l <;> by_cases hg : n = "GlobalFlag" <;> by_cases hv : n = "VerifierDlls" <;>
      simp [hl, hg, hv, hookedFlag_hookedFlag]
  · by_cases hl : k ∈ l <;> simp [hl, hk]

theorem unhookedReg_nil (reg : String → String → Option RegData) : unhookedReg [] reg = reg := by
  funext k n
  simp [unhookedReg]

theorem hookedReg_nil (reg : String → String → Option RegData) : hookedReg [] reg = reg := by
  funext k n
  simp [hookedReg]

theorem UninstallForExecutable_faultless {env : Env} (hq : Quiet env) (hf : Faultless env)
    (t : String) (s : Sys) :
    (UninstallForExecutable env t s).1 = 0 ∧
    (UninstallForExecutable env t s).2.store =
      { reg := unhookedReg [t] s.store.reg, file := s.store.file, atom := s.store.atom } := by
  constructor
  · rw [UninstallForExecutable_ret hq, if_pos (Or.inl (hf _).1)]
  · rw [UninstallForExecutable_store hq, if_pos (hf _).1, if_pos (hf _).1,
      seenFlag_of_ReadsSucceed (ReadsSucceed_of_Faultless hf)]
    simp only [Store.put, Store.mk.injEq, and_true]
    funext k n
    unfold unhookedReg
    by_cases hk : k = t
    · subst hk
      by_cases hg : n = "GlobalFlag" <;> by_cases hv : n = "VerifierDlls" <;>
        simp [hg, hv]
    · simp [hk]

theorem InstallForExecutable_faultless {env : Env} (hq : Quiet env) (hf : Faultless env)
    (t : String) (s : Sys) :
    (InstallForExecutable env t s).1 = 0 ∧
    (InstallForExecutable env t s).2.store =
      { reg := hookedReg [t] s.store.reg, file := s.store.file, atom := s.store.atom } := by
  constructor
  · rw [InstallForExecutable_ret, if_pos (hf _).1]
    exact (hf _).1
  · rw [InstallForExecutable_store hq, if_pos (hf _).1, if_pos (hf _).1,
      seenFlag_of_ReadsSucceed (ReadsSucceed_of_Faultless hf)]
    simp only [Store.put, Store.mk.injEq, and_true]
    funext k n
    unfold hookedReg
    by_cases hk : k = t
    · subst hk
      by_cases hg : n = "GlobalFlag" <;> by_cases hv : n = "VerifierDlls" <;>
        simp [hg, hv]
    · simp [hk]

theorem UninstallInternal_loop_store {env : Env} (hq : Quiet env) (hf : Faultless env) :
    ∀ (l : List String) (s : Sys),
      (UninstallInternal.loop env l 0 false s).2.2.store =
        { reg := unhookedReg l s.store.reg, file := s.store.file, atom := s.store.atom } := by
  intro l
  induction l with
  | nil =>
    intro s
    rw [unhookedReg_nil]
    rfl
  | cons t rest ih =>
    intro s
    obtain ⟨h0, hst⟩ := UninstallForExecutable_faultless hq hf t s
    rw [UninstallInternal_loop_cons, if_pos h0, ih, hst, unhookedReg_cons]

theorem UninstallInternal_store {env : Env} (hq : Quiet env) (hf : Faultless env) (s : Sys) :
    (UninstallInternal env s).2.store =
      { reg := unhookedReg remove_from s.store.reg, file := none, atom := s.store.atom } := by
  rw [UninstallInternal_eq, (UninstallInternal_loop_faultless hq hf remove_from s).2]
  simp only [Bool.false_eq_true, if_false]
  rw [nuke_file_store hq, if_pos (hf _).1, UninstallInternal_loop_store hq hf]

theorem Install_loop_faultless {env : Env} (hq : Quiet env) (hf : Faultless env)
    (boxes : CheckBoxes) :
    ∀ (l : List ((CheckBoxes → Bool) × String)) (s : Sys),
      (Install.loop env boxes l s).1 = [] ∧
      (Install.loop env boxes l s).2.store =
        { reg := hookedReg (checkedTargets boxes l) s.store.reg, file := s.store.file,
          atom := s.store.atom } := by
  intro l
  induction l with
  | nil =>
    intro s
    refine ⟨rfl, ?_⟩
    show s.store = _
    rw [show checkedTargets boxes [] = [] from rfl, hookedReg_nil]
  | cons c rest ih =>
    intro s
    rw [Install_loop_cons]
    by_cases hc : c.1 boxes = true
    · obtain ⟨h0, hst⟩ := InstallForExecutable_faultless hq hf c.2 s
      obtain ⟨hw, hs2⟩ := ih (InstallForExecutable env c.2 s).2
      rw [if_pos hc, if_pos h0]
      refine ⟨hw, ?_⟩
      show (Install.loop env boxes rest (InstallForExecutable env c.2 s).2).2.store = _
      rw [hs2, hst, hookedReg_cons]
      have : checkedTargets boxes (c :: rest) = c.2 :: checkedTargets boxes rest := by
        simp [checkedTargets, hc]
      rw [this]
    · rw [if_neg hc]
      have : checkedTargets boxes (c :: rest) = checkedTargets boxes rest := by
        simp [checkedTargets, hc]
      rw [this]
      exact ih s

theorem Install_faultless {env : Env} (hq : Quiet env) (hf : Faultless env) (blob : List Nat)
    (boxes : CheckBoxes) (s : Sys) :
    (Install env blob boxes s).1 = InstallResult.succeeded [] ∧
    (Install env blob boxes s).2.store =
      { reg := hookedReg ("winlogon.exe" :: checkedTargets boxes checks)
          (unhookedReg remove_from s.store.reg),
        file := some blob, atom := s.store.atom } := by
  have h1 : (UninstallInternal env s).1 = 0 := UninstallInternal_faultless hq hf s
  have h2 : (write_file env blob (UninstallInternal env s).2).1 = 0 := by
    rw [write_file_ret]; exact (hf _).1
  obtain ⟨h3, hst3⟩ := InstallForExecutable_faultless hq hf "winlogon.exe"
    (write_file env blob (UninstallInternal env s).2).2
  obtain ⟨hw, hst4⟩ := Install_loop_faultless hq hf boxes checks
    (InstallForExecutable env "winlogon.exe" (write_file env blob (UninstallInternal env s).2).2).2
  rw [Install_eq]
  simp only [h1, h2, h3, ne_eq, not_true_eq_false, if_false]
  refine ⟨by rw [hw], ?_⟩
  rw [hst4, hst3, write_file_store hq, if_pos (hf _).1, UninstallInternal_store hq hf]
  simp only [hookedReg_cons]

theorem hooked_subset_remove_from (boxes : CheckBoxes) :
    ∀ k ∈ "winlogon.exe" :: checkedTargets boxes checks, k ∈ remove_from := by
  intro k hk
  have hsub : ∀ k ∈ checkedTargets boxes checks, k ∈ checks.map (fun c => c.2) := by
    intro k hk
    unfold checkedTargets at hk
    obtain ⟨c, hc, rfl⟩ := List.mem_map.1 hk
    exact List.mem_map.2 ⟨c, (List.mem_filter.1 hc).1, rfl⟩
  rcases List.mem_cons.1 hk with rfl | hk
  · decide
  · have h3 := hsub k hk
    have hl : checks.map (fun c => c.2) = ["explorer.exe", "LogonUI.exe", "SystemSettings.exe"] :=
      rfl
    rw [hl] at h3
    simp only [List.mem_cons, List.mem_singleton, List.not_mem_nil, or_false] at h3
    rcases h3 with rfl | rfl | rfl <;> decide

theorem unhookedReg_hookedReg (R H : List String) (hsub : ∀ k ∈ H, k ∈ R)
    (reg : String → String → Option RegData) :
    unhookedReg R (hookedReg H reg) = unhookedReg R reg := by
  funext k n
  unfold unhookedReg hookedReg
  by_cases hR : k ∈ R
  · by_cases hH : k ∈ H <;> by_cases hg : n = "GlobalFlag" <;>
      by_cases hv : n = "VerifierDlls" <;> simp [hR, hH, hg, hv, clearedFlag_hookedFlag]
  · have hH : k ∉ H := fun h => hR (hsub k h)
    simp [hR, hH]

theorem unhookedReg_unhookedReg (R : List String) (reg : String → String → Option RegData) :
    unhookedReg R (unhookedReg R reg) = unhookedReg R reg := by
  funext k n
  unfold unhookedReg
  by_cases hR : k ∈ R
  · by_cases hg : n = "GlobalFlag" <;> by_cases hv : n = "VerifierDlls" <;>
      simp [hR, hg, hv, clearedFlag_clearedFlag]
  · simp [hR]

/-! ## Install followed by Uninstall (C8) -/

theorem and_mask_of_clear (v : Nat) (hlt : v < 2 ^ 32) (hbit : v &&& 0x100 = 0) :
    v &&& 0xFFFFFEFF = v := by
  apply Nat.eq_of_testBit_eq
  intro i
  rw [Nat.testBit_and, mask_testBit]
  cases hv : Nat.testBit v i
  · rfl
  · have h32 : i < 32 := by
      by_contra hge
      have : v < 2 ^ i := lt_of_lt_of_le hlt (Nat.pow_le_pow_right (by norm_num) (Nat.le_of_not_lt hge))
      rw [Nat.testBit_lt_two_pow this] at hv
      cases hv
    have h8 : i ≠ 8 := by
      intro h
      subst h
      rw [(and_flg_eq_zero_iff v).1 hbit] at hv
      cases hv
    simp [h32, h8]

theorem clearedFlag_of_unhooked (d : Option RegData)
    (h : d = none ∨ ∃ v, d = some (RegData.dword v) ∧ v < 2 ^ 32 ∧ v ≠ 0 ∧
      v &&& FLG_APPLICATION_VERIFIER = 0) :
    clearedFlag d = d := by
  rcases h with rfl | ⟨v, rfl, hlt, hne, hbit⟩
  · rfl
  · have hmod : v % 2 ^ 32 = v := Nat.mod_eq_of_lt hlt
    have hmask : v &&& 0xFFFFFEFF = v := and_mask_of_clear v hlt hbit
    show (if (v % 2 ^ 32) &&& 0xFFFFFEFF = 0 then none
      else some (RegData.dword ((v % 2 ^ 32) &&& 0xFFFFFEFF))) = _
    rw [hmod, hmask, if_neg hne]

/-- C8, counterexample. With no call failing, `Install` followed by `Uninstall`
on the system that already had the shim installed leaves `winlogon.exe`
without the `GlobalFlag` and `VerifierDlls` values it had before; on the system
hooked by another tool it leaves `explorer.exe` without that tool's values. -/
theorem Install_Uninstall_not_restoring :
    (hookedStore.reg "winlogon.exe" "GlobalFlag" = some (RegData.dword 0x100) ∧
      (Uninstall calmEnv (Install calmEnv blobMZ ⟨false, false, false⟩
        (Sys.start hookedStore)).2).store.reg "winlogon.exe" "GlobalFlag" = none ∧
      hookedStore.reg "winlogon.exe" "VerifierDlls" = some (RegData.sz kPatcherDllName) ∧
      (Uninstall calmEnv (Install calmEnv blobMZ ⟨false, false, false⟩
        (Sys.start hookedStore)).2).store.reg "winlogon.exe" "VerifierDlls" = none) ∧
    (foreignStore.reg "explorer.exe" "VerifierDlls" = some (RegData.sz "other.dll".toList) ∧
      (Uninstall calmEnv (Install calmEnv blobMZ ⟨false, false, false⟩
        (Sys.start foreignStore)).2).store.reg "explorer.exe" "VerifierDlls" = none) := by
  decide

/-- C8, amended. Without a concurrent writer and with no call failing, for
every initial state and every choice of check boxes, `Install` followed by
`Uninstall` leaves no shim file and, for each of the five executables of
`remove_from`, no `VerifierDlls` value and the `GlobalFlag` with bit `0x100`
cleared and all other bits as before the `Install` (no value when no other bit
was set or the value was not a `REG_DWORD`).  Both values equal the values
before the `Install` for an executable that had no `VerifierDlls` value and
whose `GlobalFlag` was absent or a non-zero 32-bit `REG_DWORD` with bit `0x100`
clear. -/
theorem Install_Uninstall_round_trip (env : Env) (hq : Quiet env) (hf : Faultless env)
    (blob : List Nat) (boxes : CheckBoxes) (s : Sys) :
    (Uninstall env (Install env blob boxes s).2).store.file = none ∧
    ∀ t ∈ remove_from,
      (Uninstall env (Install env blob boxes s).2).store.reg t "VerifierDlls" = none ∧
      (Uninstall env (Install env blob boxes s).2).store.reg t "GlobalFlag" =
        clearedFlag (s.store.reg t "GlobalFlag") ∧
      flagOf ((Uninstall env (Install env blob boxes s).2).store.reg t "GlobalFlag") =
        flagOf (s.store.reg t "GlobalFlag") &&& NOT_FLG_APPLICATION_VERIFIER ∧
      (s.store.reg t "VerifierDlls" = none →
        (s.store.reg t "GlobalFlag" = none ∨
          ∃ v, s.store.reg t "GlobalFlag" = some (RegData.dword v) ∧ v < 2 ^ 32 ∧ v ≠ 0 ∧
            v &&& FLG_APPLICATION_VERIFIER = 0) →
        (Uninstall env (Install env blob boxes s).2).store.reg t "GlobalFlag" =
            s.store.reg t "GlobalFlag" ∧
          (Uninstall env (Install env blob boxes s).2).store.reg t "VerifierDlls" =
            s.store.reg t "VerifierDlls") := by
  have hstore : (Uninstall env (Install env blob boxes s).2).store =
      { reg := unhookedReg remove_from s.store.reg, file := none, atom := s.store.atom } := by
    unfold Uninstall
    rw [UninstallInternal_store hq hf, (Install_faultless hq hf blob boxes s).2]
    simp only [unhookedReg_hookedReg _ _ (hooked_subset_remove_from boxes),
      unhookedReg_unhookedReg]
  rw [hstore]
  refine ⟨rfl, ?_⟩
  intro t ht
  have hv : unhookedReg remove_from s.store.reg t "VerifierDlls" = none := by
    unfold unhookedReg
    rw [if_pos ht, if_neg VerifierDlls_ne_GlobalFlag, if_pos rfl]
  have hg : unhookedReg remove_from s.store.reg t "GlobalFlag" =
      clearedFlag (s.store.reg t "GlobalFlag") := by
    unfold unhookedReg
    rw [if_pos ht, if_pos rfl]
  refine ⟨hv, hg, ?_, ?_⟩
  · show flagOf (unhookedReg remove_from s.store.reg t "GlobalFlag") = _
    rw [hg, flagOf_clearedFlag]
  · intro hnone hflag
    show unhookedReg remove_from s.store.reg t "GlobalFlag" = _ ∧
      unhookedReg remove_from s.store.reg t "VerifierDlls" = _
    rw [hg, hv, hnone, clearedFlag_of_unhooked _ hflag]
    exact ⟨rfl, rfl⟩

/-- C8 amended, at work: on the fresh system, with `explorer.exe` checked, the
values of `explorer.exe` are back to absent after `Install` and `Uninstall`. -/
theorem Install_Uninstall_round_trip_witness :
    (Uninstall calmEnv (Install calmEnv blobMZ ⟨true, false, false⟩
        (Sys.start freshStore)).2).store.reg "explorer.exe" "GlobalFlag" =
        (Sys.start freshStore).store.reg "explorer.exe" "GlobalFlag" ∧
      (Uninstall calmEnv (Install calmEnv blobMZ ⟨true, false, false⟩
        (Sys.start freshStore)).2).store.reg "explorer.exe" "VerifierDlls" =
        (Sys.start freshStore).store.reg "explorer.exe" "VerifierDlls" :=
  ((Install_Uninstall_round_trip calmEnv (fun _ _ => rfl) (fun _ => ⟨rfl, rfl⟩) blobMZ
    ⟨true, false, false⟩ (Sys.start freshStore)).2 "explorer.exe" (by decide)).2.2.2
    rfl (Or.inl rfl)

/-! ## Installing twice (C9) -/

/-- C9. `Install` is idempotent: without a concurrent writer and with no call
failing, for every initial state, payload and choice of check boxes, a second
`Install` ends with "Installing succeeded" like the first and leaves the store
of the first unchanged: the shim file, every registry value (those of
the five executables of `remove_from` among them) and the bypass count are the
same, and so is the status evaluated from them. -/
theorem Install_idempotent (env : Env) (hq : Quiet env) (hf : Faultless env)
    (blob : List Nat) (boxes : CheckBoxes) (s : Sys) :
    (Install env blob boxes (Install env blob boxes s).2).1 = (Install env blob boxes s).1 ∧
    UpdatePatcherState blob (Install env blob boxes (Install env blob boxes s).2).2.store =
      UpdatePatcherState blob (Install env blob boxes s).2.store ∧
    (Install env blob boxes (Install env blob boxes s).2).2.store.file =
      (Install env blob boxes s).2.store.file ∧
    (∀ t ∈ remove_from, ∀ n,
      (Install env blob boxes (Install env blob boxes s).2).2.store.reg t n =
        (Install env blob boxes s).2.store.reg t n) ∧
    (Install env blob boxes (Install env blob boxes s).2).2.store =
      (Install env blob boxes s).2.store := by
  have hstore : (Install env blob boxes (Install env blob boxes s).2).2.store =
      (Install env blob boxes s).2.store := by
    rw [(Install_faultless hq hf blob boxes (Install env blob boxes s).2).2,
      (Install_faultless hq hf blob boxes s).2]
    simp only [unhookedReg_hookedReg _ _ (hooked_subset_remove_from boxes),
      unhookedReg_unhookedReg]
  refine ⟨?_, ?_, ?_, ?_, hstore⟩
  · rw [(Install_faultless hq hf blob boxes (Install env blob boxes s).2).1,
      (Install_faultless hq hf blob boxes s).1]
  · rw [hstore]
  · rw [hstore]
  · intro t _ n
    rw [hstore]

/-- C9 at work: installing twice on the system that had the shim installed,
with `explorer.exe` checked. -/
theorem Install_idempotent_witness :
    UpdatePatcherState blobMZ
        (Install calmEnv blobMZ ⟨true, false, false⟩
          (Install calmEnv blobMZ ⟨true, false, false⟩ (Sys.start hookedStore)).2).2.store =
      UpdatePatcherState blobMZ
        (Install calmEnv blobMZ ⟨true, false, false⟩ (Sys.start hookedStore)).2.store :=
  (Install_idempotent calmEnv (fun _ _ => rfl) (fun _ => ⟨rfl, rfl⟩) blobMZ ⟨true, false, false⟩
    (Sys.start hookedStore)).2.1

/-! ## A failing file removal (C11) -/

/-- When the removal loop ended without a failure, `UninstallInternal` returns
the code of `utl::nuke_file`. -/
theorem UninstallInternal_ret_of_loop_ok (env : Env) (s : Sys)
    (h : (UninstallInternal.loop env remove_from 0 false s).2.1 = false) :
    (UninstallInternal env s).1 =
      (env (UninstallInternal.loop env remove_from 0 false s).2.2.clock).err := by
  rw [UninstallInternal_eq, h]
  simp only [Bool.false_eq_true, if_false]
  exact nuke_file_ret _ _

/-- C11, the code at the failing input. On the system with the shim installed
the removals for all five executables succeed (the loop ends without a failure
and every hook bit reads clear) and `utl::nuke_file`, the eleventh call, fails
with code 5.  `UninstallInternal` returns 5, not success; `Install` takes this
for a failed cleanup, ends with "Installation cannot continue because
uninstalling failed" and writes nothing. -/
theorem UninstallInternal_returns_nuke_file_failure :
    (UninstallInternal.loop (failAt 10 5) remove_from 0 false (Sys.start hookedStore)).2.1 =
        false ∧
      IsInstalledForExecutable (UninstallInternal (failAt 10 5) (Sys.start hookedStore)).2.store
        "winlogon.exe" = false ∧
      (UninstallInternal (failAt 10 5) (Sys.start hookedStore)).2.trace.getLast? =
        some Call.nuke_file ∧
      (UninstallInternal (failAt 10 5) (Sys.start hookedStore)).1 = 5 ∧
      (Install (failAt 10 5) blobMZ ⟨false, false, false⟩ (Sys.start hookedStore)).1 =
        InstallResult.uninstallFailed ∧
      (Install (failAt 10 5) blobMZ ⟨false, false, false⟩ (Sys.start hookedStore)).2.trace =
        (UninstallInternal (failAt 10 5) (Sys.start hookedStore)).2.trace := by
  decide

/-! ## Per-target removal with the bit off at the re-read (C12) -/

/-- C12. Per-target removal succeeds whenever the hook bit is off at the
re-read: for every target, every store and every environment (so whatever code
the delete or write-back of `GlobalFlag` returned, and whatever concurrent
writers did), if the second read of `GlobalFlag` has bit `0x100` clear, then
`UninstallForExecutable` returns 0 and issues a delete of the `VerifierDlls` of
the target; and when that delete is carried out and no concurrent writer puts
the value back, `VerifierDlls` is absent afterwards. -/
theorem UninstallForExecutable_bit_clear_succeeds (env : Env) (executable : String) (s : Sys)
    (h : RegGetValueW_DWORD (UninstallForExecutable.clearFlag env executable s).2.store
          executable "GlobalFlag" &&& FLG_APPLICATION_VERIFIER = 0) :
    (UninstallForExecutable env executable s).1 = 0 ∧
      Call.RegDeleteKeyValueW executable "VerifierDlls" ∈
        (UninstallForExecutable env executable s).2.trace.drop s.trace.length ∧
      ((env (s.clock + 1)).err = 0 →
        (∀ st, ((env (s.clock + 1)).after st).reg executable "VerifierDlls" =
          st.reg executable "VerifierDlls") →
        (UninstallForExecutable env executable s).2.store.reg executable "VerifierDlls" =
          none) := by
  rw [UninstallForExecutable_eq, if_pos h]
  refine ⟨rfl, ?_, ?_⟩
  · obtain ⟨c, hc, _⟩ := clearFlag_trace env executable s
    show Call.RegDeleteKeyValueW executable "VerifierDlls" ∈
      ((RegDeleteKeyValueW env executable "VerifierDlls"
        (UninstallForExecutable.clearFlag env executable s).2).2.trace).drop s.trace.length
    rw [RegDeleteKeyValueW_trace, hc, List.append_assoc, drop_append_length]
    simp
  · intro herr hw
    show (RegDeleteKeyValueW env executable "VerifierDlls"
      (UninstallForExecutable.clearFlag env executable s).2).2.store.reg
        executable "VerifierDlls" = none
    unfold RegDeleteKeyValueW
    simp only [clearFlag_clock, herr, if_true]
    cases hv : (UninstallForExecutable.clearFlag env executable s).2.store.reg
        executable "VerifierDlls" with
    | none =>
      show ((env (s.clock + 1)).after _).reg executable "VerifierDlls" = none
      rw [hw]
      exact hv
    | some d =>
      show ((env (s.clock + 1)).after _).reg executable "VerifierDlls" = none
      rw [hw, Store.put_reg, if_pos ⟨rfl, rfl⟩]

/-- C12 at work. On the system hooked by another tool the delete of the
`GlobalFlag` of `explorer.exe` returns the error 5 while another actor removes
the value; the re-read has the bit clear, the removal returns 0 and the
`VerifierDlls` value is removed.  On the fresh system the delete of the
`GlobalFlag`, a value that does not exist, returns `ERROR_FILE_NOT_FOUND`, and
the removal returns 0 all the same. -/
theorem UninstallForExecutable_bit_clear_succeeds_witness :
    ((UninstallForExecutable.clearFlag lostRaceEnv "explorer.exe"
          (Sys.start foreignStore)).1 = 5 ∧
      (UninstallForExecutable lostRaceEnv "explorer.exe" (Sys.start foreignStore)).1 = 0 ∧
      Call.RegDeleteKeyValueW "explorer.exe" "VerifierDlls" ∈
        (UninstallForExecutable lostRaceEnv "explorer.exe" (Sys.start foreignStore)).2.trace.drop
          (Sys.start foreignStore).trace.length ∧
      (UninstallForExecutable lostRaceEnv "explorer.exe"
        (Sys.start foreignStore)).2.store.reg "explorer.exe" "VerifierDlls" = none) ∧
    ((UninstallForExecutable.clearFlag calmEnv "explorer.exe" (Sys.start freshStore)).1 =
        ERROR_FILE_NOT_FOUND ∧
      (UninstallForExecutable calmEnv "explorer.exe" (Sys.start freshStore)).1 = 0) :=
  have h := UninstallForExecutable_bit_clear_succeeds lostRaceEnv "explorer.exe"
    (Sys.start foreignStore) (by decide)
  have h2 := UninstallForExecutable_bit_clear_succeeds calmEnv "explorer.exe"
    (Sys.start freshStore) (by decide)
  ⟨⟨by decide, h.1, h.2.1, h.2.2 rfl (fun _ => rfl)⟩, by decide, h2.1⟩

end SecureUxTheme
